import Mathlib

/-!
Shallow embedding of the session-limit core of the repository
(file src/limits.ts): quota resolution, session-guard admission,
buffered byte accounting with flush, and bounded session history,
over an explicit key-value store model.

Store values are strings in the source; here a stored string is
represented by the observations the code makes of it: JS truthiness,
the result of Number() when finite, and the result of JSON.parse.
Store keys are built from five fixed templates over a namespace
key prefix; they are represented by an inductive type, reflecting
that the five template families produce distinct key strings.
JS numbers are modelled as rationals; a separate constructor stands
for the non-finite values (NaN, Infinity) that Number.isFinite rejects.
-/

namespace Limits

/-- A session-history entry as built by the code (JSON object fields). -/
structure HistEntry where
  timestamp : ℚ
  etype : String
  userID : String
  profile : String
  sessionId : String
  bytes : Option ℚ
  durationSec : Option ℚ
  activeSessions : ℚ
deriving DecidableEq

/-- An element of a JSON array stored under the history key: either an
entry written by this code, or any other JSON value (kept abstract). -/
inductive JsItem where
  | entry (e : HistEntry)
  | extra (tag : Nat)
deriving DecidableEq

/-- The top-level result of JSON.parse, as far as the code observes it:
an array (the only shape with unshift), or any non-array JSON value. -/
inductive JsonTop where
  | arr (items : List JsItem)
  | nonArr
deriving DecidableEq

/-- A stored string value, represented by the observations the code makes:
numStr n is String(n) for a finite number n; histStr l is JSON.stringify
of an array; rawStr models an arbitrary external string via its JS
truthiness, its Number() value (none when not finite), and its JSON.parse
result (none when JSON.parse throws). -/
inductive Val where
  | numStr (n : ℚ)
  | histStr (items : List JsItem)
  | rawStr (t : Bool) (num : Option ℚ) (json : Option JsonTop)
deriving DecidableEq

/-- JS truthiness of the stored string (nonempty string). -/
def Val.truthy : Val → Bool
  | Val.numStr _ => true
  | Val.histStr _ => true
  | Val.rawStr t _ _ => t

/-- Number(s) of the stored string, when finite; none models NaN or
Infinity. Number(String(n)) = n; Number of a stringified array of
entries is NaN. -/
def Val.toNum : Val → Option ℚ
  | Val.numStr n => some n
  | Val.histStr _ => none
  | Val.rawStr _ num _ => num

/-- JSON.parse of the stored string; none models a parse exception.
String(n) parses as a JSON number (non-array); JSON.stringify of an
array parses back to that array. -/
def Val.jsonParse : Val → Option JsonTop
  | Val.numStr _ => some JsonTop.nonArr
  | Val.histStr items => some (JsonTop.arr items)
  | Val.rawStr _ _ json => json

/-- Store keys: the five key templates of limits.ts over a namespace
key prefix ns ('active-sessions', 'usage-bytes', 'last-reset',
'session-history', 'daily:' ++ day). Distinct constructors reflect
that the templates yield distinct key strings. -/
inductive StoreKey where
  | activeSessions (ns : String)
  | usageBytes (ns : String)
  | lastReset (ns : String)
  | sessionHistory (ns : String)
  | daily (ns : String) (day : String)
deriving DecidableEq

/-- The key-value store: a write log, most recent first. -/
abbrev Store := List (StoreKey × Val)

/-- kv.get: the most recently written value at a key, if any. -/
def kvGet (s : Store) (k : StoreKey) : Option Val :=
  (s.find? (fun p => p.1 == k)).map (fun p => p.2)

/-- kv.put: record a write. -/
def kvPut (s : Store) (k : StoreKey) (v : Val) : Store :=
  (k, v) :: s

/-- A store operation, for observing which reads and writes a call makes. -/
inductive KVOp where
  | rd (k : StoreKey)
  | wr (k : StoreKey) (v : Val)
deriving DecidableEq

/-- Errors thrown by the embedded code: JSON.parse SyntaxError,
TypeError from unshift on a non-array, and the explicit
new Error thrown by the volume check in addBytes. -/
inductive JsErr where
  | badJson
  | typeErr
  | limitHit (msg : String)
deriving DecidableEq

/-- getNumber (limits.ts line 147): Number(value or 0) with non-finite
values defaulted to 0; an absent key reads as 0. -/
def getNumberVal (s : Store) (k : StoreKey) : ℚ :=
  match kvGet s k with
  | none => 0
  | some v => (Val.toNum v).getD 0

/-- getOrInitCreatedAt (limits.ts line 136): return the stored value when
it is a truthy string parsing to a finite positive number; otherwise
write now and return now. Result: value, updated store, operation log. -/
def getOrInitCreatedAt (s : Store) (k : StoreKey) (now : ℚ) :
    ℚ × Store × List KVOp :=
  match kvGet s k with
  | some v =>
    if v.truthy then
      match v.toNum with
      | some p =>
        if 0 < p then (p, s, [KVOp.rd k])
        else (now, kvPut s k (Val.numStr now), [KVOp.rd k, KVOp.wr k (Val.numStr now)])
      | none => (now, kvPut s k (Val.numStr now), [KVOp.rd k, KVOp.wr k (Val.numStr now)])
    else (now, kvPut s k (Val.numStr now), [KVOp.rd k, KVOp.wr k (Val.numStr now)])
  | none => (now, kvPut s k (Val.numStr now), [KVOp.rd k, KVOp.wr k (Val.numStr now)])

/-- appendSessionHistory (limits.ts line 153): read the raw history,
JSON.parse it when truthy (else start from the empty array), unshift the
entry, and write back the first 50 entries. JSON.parse throws on an
invalid string; unshift throws on a non-array. -/
def appendSessionHistory (s : Store) (k : StoreKey) (e : HistEntry) :
    Except JsErr Unit × Store × List KVOp :=
  match kvGet s k with
  | none =>
    let v := Val.histStr ((JsItem.entry e :: ([] : List JsItem)).take 50)
    (Except.ok (), kvPut s k v, [KVOp.rd k, KVOp.wr k v])
  | some raw =>
    if raw.truthy then
      match raw.jsonParse with
      | none => (Except.error JsErr.badJson, s, [KVOp.rd k])
      | some (JsonTop.arr l) =>
        let v := Val.histStr ((JsItem.entry e :: l).take 50)
        (Except.ok (), kvPut s k v, [KVOp.rd k, KVOp.wr k v])
      | some JsonTop.nonArr => (Except.error JsErr.typeErr, s, [KVOp.rd k])
    else
      let v := Val.histStr ((JsItem.entry e :: ([] : List JsItem)).take 50)
      (Except.ok (), kvPut s k v, [KVOp.rd k, KVOp.wr k v])

/-- Global settings consumed by createSessionGuard (limits.ts line 16). -/
structure Settings where
  configMaxUsers : ℚ
  configDurationDays : ℚ
  configVolumeGB : ℚ
deriving DecidableEq

/-- Per-connection profile configuration (limits.ts line 18); empty
profile means the global namespace, and an absent option models an
undefined override. -/
structure WsConfig where
  profile : String
  profileUsersLimit : Option ℚ
  profileDurationDays : Option ℚ
  profileVolumeGB : Option ℚ
deriving DecidableEq

/-- keyPrefix (limits.ts line 22): profile-dependent namespace key
prefix string. -/
def keyPfx (profile : String) : String :=
  if profile ≠ "" then "limits:profile:" ++ profile ++ ":" else "limits:"

/-- maxUsersLimit (limits.ts line 23): the profile usersLimit when it is
truthy and positive, else the global maxUsers. -/
def maxUsersLimit (st : Settings) (w : WsConfig) : ℚ :=
  match w.profileUsersLimit with
  | some u => if u ≠ 0 ∧ 0 < u then u else st.configMaxUsers
  | none => st.configMaxUsers

/-- durationDaysLimit (limits.ts line 24): the profile durationDays when
defined (including zero), else the global durationDays. -/
def durationDaysLimit (st : Settings) (w : WsConfig) : ℚ :=
  match w.profileDurationDays with
  | some d => d
  | none => st.configDurationDays

/-- volumeGbLimit (limits.ts line 25): the profile volumeGB when defined
(including zero), else the global volumeGB. -/
def volumeGbLimit (st : Settings) (w : WsConfig) : ℚ :=
  match w.profileVolumeGB with
  | some g => g
  | none => st.configVolumeGB

/-- totalBytesLimit (limits.ts line 34): Math.floor of the resolved GB
value times 1024^3 when the GB value is positive, else 0 (unlimited). -/
def totalBytesLimit (st : Settings) (w : WsConfig) : ℚ :=
  if 0 < volumeGbLimit st w then
    ((Int.floor (volumeGbLimit st w * (1024 * 1024 * 1024)) : ℤ) : ℚ)
  else 0

/-- The resolved effective limit set (spec section 3, EffectiveLimits). -/
structure EffectiveLimits where
  maxConcurrentSessions : ℚ
  validityDurationDays : ℚ
  totalVolumeBytes : ℚ
deriving DecidableEq

/-- The Quota Resolver as implemented: the three resolved fields of
createSessionGuard bundled. -/
def resolveLimits (st : Settings) (w : WsConfig) : EffectiveLimits :=
  { maxConcurrentSessions := maxUsersLimit st w
    validityDurationDays := durationDaysLimit st w
    totalVolumeBytes := totalBytesLimit st w }

/-- Modelled from the spec wording of the Quota Resolver (spec section
4.1), for comparison with resolveLimits: usersLimit when defined and
strictly positive else maxUsers; profile durationDays whenever defined
else global; floor(resolvedGB times 2^30), or 0 when resolvedGB ≤ 0. -/
def resolveLimitsSpec (st : Settings) (w : WsConfig) : EffectiveLimits :=
  { maxConcurrentSessions :=
      match w.profileUsersLimit with
      | some u => if 0 < u then u else st.configMaxUsers
      | none => st.configMaxUsers
    validityDurationDays :=
      match w.profileDurationDays with
      | some d => d
      | none => st.configDurationDays
    totalVolumeBytes :=
      match w.profileVolumeGB with
      | some g => if g ≤ 0 then 0 else ((Int.floor (g * 2 ^ 30) : ℤ) : ℚ)
      | none =>
        if st.configVolumeGB ≤ 0 then 0
        else ((Int.floor (st.configVolumeGB * 2 ^ 30) : ℤ) : ℚ) }

/-- The immutable per-session data captured by the closure of
createSessionGuard for an allowed guard. -/
structure GuardCtx where
  ns : String
  userID : String
  profileName : String
  sessionId : String
  startedAt : ℚ
  totalLimit : ℚ
deriving DecidableEq

/-- The mutable closure variables of an allowed guard
(isClosed, bufferedBytes, sessionBytes; limits.ts lines 60-62). -/
structure GuardMut where
  isClosed : Bool
  bufferedBytes : ℚ
  sessionBytes : ℚ
deriving DecidableEq

/-- A JS number argument: a finite rational, or a non-finite value
(NaN or Infinity) rejected by Number.isFinite. -/
inductive JsNum where
  | fin (q : ℚ)
  | nonFinite
deriving DecidableEq

/-- flushUsage (limits.ts line 64): when bytes are buffered, add the
buffer to the stored cumulative usage and to the daily counter of the
given ISO day, then clear the buffer. -/
def flushUsage (c : GuardCtx) (m : GuardMut) (s : Store) (day : String) :
    GuardMut × Store × List KVOp :=
  if m.bufferedBytes = 0 then (m, s, [])
  else
    let uKey := StoreKey.usageBytes c.ns
    let latest := getNumberVal s uKey
    let s1 := kvPut s uKey (Val.numStr (latest + m.bufferedBytes))
    let dKey := StoreKey.daily c.ns day
    let dailyU := getNumberVal s1 dKey
    let s2 := kvPut s1 dKey (Val.numStr (dailyU + m.bufferedBytes))
    ({ m with bufferedBytes := 0 }, s2,
      [KVOp.rd uKey, KVOp.wr uKey (Val.numStr (latest + m.bufferedBytes)),
       KVOp.rd dKey, KVOp.wr dKey (Val.numStr (dailyU + m.bufferedBytes))])

/-- addBytes (limits.ts line 78): ignore non-finite or non-positive
bytes; buffer the bytes and add them to the session total; flush when
the buffer reaches 64 KiB; then, when a volume limit is configured,
re-read the stored usage and throw when it plus the still-buffered
bytes strictly exceeds the limit. -/
def addBytes (c : GuardCtx) (m : GuardMut) (s : Store) (day : String)
    (bytes : JsNum) : Except JsErr Unit × GuardMut × Store × List KVOp :=
  match bytes with
  | JsNum.nonFinite => (Except.ok (), m, s, [])
  | JsNum.fin b =>
    if b ≤ 0 then (Except.ok (), m, s, [])
    else
      let m1 : GuardMut :=
        { m with bufferedBytes := m.bufferedBytes + b
                 sessionBytes := m.sessionBytes + b }
      let fr :=
        if 64 * 1024 ≤ m1.bufferedBytes then flushUsage c m1 s day
        else (m1, s, [])
      let m2 := fr.1
      let s2 := fr.2.1
      let t2 := fr.2.2
      if 0 < c.totalLimit then
        let uKey := StoreKey.usageBytes c.ns
        let latest := getNumberVal s2 uKey
        if c.totalLimit < latest + m2.bufferedBytes then
          (Except.error (JsErr.limitHit "Volume limit reached."), m2, s2,
            t2 ++ [KVOp.rd uKey])
        else (Except.ok (), m2, s2, t2 ++ [KVOp.rd uKey])
      else (Except.ok (), m2, s2, t2)

/-- commitInboundBytes (limits.ts line 97): forwards to addBytes. -/
def commitInboundBytes (c : GuardCtx) (m : GuardMut) (s : Store)
    (day : String) (bytes : JsNum) :
    Except JsErr Unit × GuardMut × Store × List KVOp :=
  addBytes c m s day bytes

/-- commitOutboundBytes (limits.ts line 100): forwards to addBytes. -/
def commitOutboundBytes (c : GuardCtx) (m : GuardMut) (s : Store)
    (day : String) (bytes : JsNum) :
    Except JsErr Unit × GuardMut × Store × List KVOp :=
  addBytes c m s day bytes

/-- close (limits.ts line 103): a no-op when already closed; otherwise
mark closed, flush the remaining buffer, decrement the active-session
count floor-clamped at 0, and append the end history entry. The two
Date.now() calls of the source close are modelled by one closeNow. -/
def close (c : GuardCtx) (m : GuardMut) (s : Store) (day : String)
    (closeNow : ℚ) : Except JsErr Unit × GuardMut × Store × List KVOp :=
  if m.isClosed then (Except.ok (), m, s, [])
  else
    let m1 : GuardMut := { m with isClosed := true }
    let fr := flushUsage c m1 s day
    let m2 := fr.1
    let s2 := fr.2.1
    let t2 := fr.2.2
    let aKey := StoreKey.activeSessions c.ns
    let latestActive := getNumberVal s2 aKey
    let finalActive := max (latestActive - 1) 0
    let s3 := kvPut s2 aKey (Val.numStr finalActive)
    let endEntry : HistEntry :=
      { timestamp := closeNow
        etype := "end"
        userID := c.userID
        profile := if c.profileName ≠ "" then c.profileName else "default"
        sessionId := c.sessionId
        bytes := some m2.sessionBytes
        durationSec := some (max 1 ((Int.floor ((closeNow - c.startedAt) / 1000) : ℤ) : ℚ))
        activeSessions := finalActive }
    let ar := appendSessionHistory s3 (StoreKey.sessionHistory c.ns) endEntry
    (ar.1, m2, ar.2.1,
      t2 ++ [KVOp.rd aKey, KVOp.wr aKey (Val.numStr finalActive)] ++ ar.2.2)

/-- The result of createSessionGuard: a denied guard carrying its
reason, or an allowed guard with its closure state. -/
inductive GuardRes where
  | denied (reason : String)
  | allowed (c : GuardCtx) (m : GuardMut)
deriving DecidableEq

/-- The allow flag of the returned guard object. -/
def GuardRes.allow : GuardRes → Bool
  | GuardRes.denied _ => false
  | GuardRes.allowed _ _ => true

/-- createSessionGuard (limits.ts line 14): resolve limits, read or
initialize the window start, run the three ordered checks (expiry,
volume, concurrent sessions), and on admission increment the
active-session count, append the start history entry, and return an
allowed guard. Date.now() and crypto.randomUUID() are passed in as
now and sessionId. -/
def createSessionGuard (st : Settings) (w : WsConfig) (userID : String)
    (now : ℚ) (sessionId : String) (s : Store) :
    Except JsErr GuardRes × Store × List KVOp :=
  let ns := keyPfx w.profile
  let gr := getOrInitCreatedAt s (StoreKey.lastReset ns) now
  let createdAt := gr.1
  let s1 := gr.2.1
  let t1 := gr.2.2
  let durLim := durationDaysLimit st w
  let expireAt := if 0 < durLim then createdAt + durLim * (24 * 60 * 60 * 1000) else 0
  if 0 < expireAt ∧ expireAt ≤ now then
    (Except.ok (GuardRes.denied "Configuration expired."), s1, t1)
  else
    let totalLim := totalBytesLimit st w
    let uKey := StoreKey.usageBytes ns
    let currentUsage := getNumberVal s1 uKey
    if 0 < totalLim ∧ totalLim ≤ currentUsage then
      (Except.ok (GuardRes.denied "Volume limit reached."), s1, t1 ++ [KVOp.rd uKey])
    else
      let aKey := StoreKey.activeSessions ns
      let active := getNumberVal s1 aKey
      if 0 < maxUsersLimit st w ∧ maxUsersLimit st w ≤ active then
        (Except.ok (GuardRes.denied "Maximum simultaneous users reached."), s1,
          t1 ++ [KVOp.rd uKey, KVOp.rd aKey])
      else
        let s2 := kvPut s1 aKey (Val.numStr (active + 1))
        let startEntry : HistEntry :=
          { timestamp := now
            etype := "start"
            userID := userID
            profile := if w.profile ≠ "" then w.profile else "default"
            sessionId := sessionId
            bytes := none
            durationSec := none
            activeSessions := active + 1 }
        let ar := appendSessionHistory s2 (StoreKey.sessionHistory ns) startEntry
        let tAll := t1 ++ [KVOp.rd uKey, KVOp.rd aKey,
          KVOp.wr aKey (Val.numStr (active + 1))] ++ ar.2.2
        match ar.1 with
        | Except.error e => (Except.error e, ar.2.1, tAll)
        | Except.ok _ =>
          (Except.ok (GuardRes.allowed
            { ns := ns, userID := userID, profileName := w.profile,
              sessionId := sessionId, startedAt := now, totalLimit := totalLim }
            { isClosed := false, bufferedBytes := 0, sessionBytes := 0 }),
            ar.2.1, tAll)

/-- The window start used by a createSessionGuard call: the value
getOrInitCreatedAt yields for the namespace of the call. -/
def windowStartOf (w : WsConfig) (now : ℚ) (s : Store) : ℚ :=
  (getOrInitCreatedAt s (StoreKey.lastReset (keyPfx w.profile)) now).1

/-- Denial condition 1 of the spec (section 4.2 step 2): a positive
validity duration whose window has elapsed. -/
abbrev cExpired (st : Settings) (w : WsConfig) (now : ℚ) (s : Store) : Prop :=
  0 < durationDaysLimit st w ∧
    windowStartOf w now s + durationDaysLimit st w * 86400000 ≤ now

/-- Denial condition 2 of the spec (section 4.2 step 3): a configured
volume limit already met by the stored cumulative usage. -/
abbrev cVolume (st : Settings) (w : WsConfig) (s : Store) : Prop :=
  0 < totalBytesLimit st w ∧
    totalBytesLimit st w ≤ getNumberVal s (StoreKey.usageBytes (keyPfx w.profile))

/-- Denial condition 3 of the spec (section 4.2 step 4): a configured
session cap already met by the stored active count. -/
abbrev cUsers (st : Settings) (w : WsConfig) (s : Store) : Prop :=
  0 < maxUsersLimit st w ∧
    maxUsersLimit st w ≤ getNumberVal s (StoreKey.activeSessions (keyPfx w.profile))

/-! ### Store lemmas -/

@[simp]
lemma kvGet_nil (k : StoreKey) : kvGet [] k = none := rfl

@[simp]
lemma kvGet_put_self (s : Store) (k : StoreKey) (v : Val) :
    kvGet (kvPut s k v) k = some v := by
  simp [kvGet, kvPut, List.find?]

@[simp]
lemma kvGet_put_ne (s : Store) (k k' : StoreKey) (v : Val) (h : k' ≠ k) :
    kvGet (kvPut s k v) k' = kvGet s k' := by
  have : (k == k') = false := by simp [beq_eq_false_iff_ne]; exact fun hc => h hc.symm
  simp [kvGet, kvPut, List.find?, this]

@[simp]
lemma getNumberVal_put_ne (s : Store) (k k' : StoreKey) (v : Val) (h : k' ≠ k) :
    getNumberVal (kvPut s k v) k' = getNumberVal s k' := by
  simp [getNumberVal, h]

@[simp]
lemma getNumberVal_put_numStr (s : Store) (k : StoreKey) (n : ℚ) :
    getNumberVal (kvPut s k (Val.numStr n)) k = n := by
  simp [getNumberVal, Val.toNum]

/-! ### getOrInitCreatedAt lemmas -/

/-- A stored window-start value that getOrInitCreatedAt does not accept:
absent, or not a truthy string parsing to a finite positive number. -/
def windowBad : Option Val → Prop
  | none => True
  | some v => ¬(v.truthy = true ∧ ∃ p, v.toNum = some p ∧ 0 < p)

lemma getOrInit_good (s : Store) (k : StoreKey) (now : ℚ) (v : Val) (p : ℚ)
    (hget : kvGet s k = some v) (ht : v.truthy = true)
    (hn : v.toNum = some p) (hp : 0 < p) :
    getOrInitCreatedAt s k now = (p, s, [KVOp.rd k]) := by
  simp [getOrInitCreatedAt, hget, ht, hn, hp]

lemma getOrInit_bad (s : Store) (k : StoreKey) (now : ℚ)
    (h : windowBad (kvGet s k)) :
    getOrInitCreatedAt s k now =
      (now, kvPut s k (Val.numStr now), [KVOp.rd k, KVOp.wr k (Val.numStr now)]) := by
  unfold getOrInitCreatedAt
  cases hget : kvGet s k with
  | none => simp
  | some v =>
    rw [hget] at h
    by_cases ht : v.truthy = true
    · cases hn : v.toNum with
      | none => simp [ht, hn]
      | some p =>
        have hp : ¬0 < p := fun hp => h ⟨ht, p, hn, hp⟩
        simp [ht, hn, hp]
    · simp [Bool.not_eq_true] at ht
      simp [ht]

lemma getOrInit_store_get_ne (s : Store) (k k' : StoreKey) (now : ℚ)
    (h : k' ≠ k) :
    kvGet (getOrInitCreatedAt s k now).2.1 k' = kvGet s k' := by
  unfold getOrInitCreatedAt
  cases hget : kvGet s k with
  | none => simp [h]
  | some v =>
    by_cases ht : v.truthy = true
    · cases hn : v.toNum with
      | none => simp [ht, hn, h]
      | some p =>
        by_cases hp : 0 < p
        · simp [ht, hn, hp]
        · simp [ht, hn, hp, h]
    · simp [Bool.not_eq_true] at ht
      simp [ht, h]

lemma getOrInit_val_cases (s : Store) (k : StoreKey) (now : ℚ) :
    (getOrInitCreatedAt s k now).1 = now ∨ 0 < (getOrInitCreatedAt s k now).1 := by
  unfold getOrInitCreatedAt
  cases hget : kvGet s k with
  | none => simp
  | some v =>
    by_cases ht : v.truthy = true
    · cases hn : v.toNum with
      | none => simp [ht, hn]
      | some p =>
        by_cases hp : 0 < p
        · simp [ht, hn, hp]
        · simp [ht, hn, hp]
    · simp [Bool.not_eq_true] at ht
      simp [ht]

/-! ### appendSessionHistory lemmas -/

/-- A stored history value that appendSessionHistory accepts without
throwing: absent, empty (falsy), or JSON parsing to an array. -/
def histParseOk : Option Val → Prop
  | none => True
  | some v => v.truthy = false ∨ ∃ l, v.jsonParse = some (JsonTop.arr l)

lemma append_absent (s : Store) (k : StoreKey) (e : HistEntry)
    (h : kvGet s k = none) :
    appendSessionHistory s k e =
      (Except.ok (), kvPut s k (Val.histStr [JsItem.entry e]),
        [KVOp.rd k, KVOp.wr k (Val.histStr [JsItem.entry e])]) := by
  simp [appendSessionHistory, h]

lemma append_falsy (s : Store) (k : StoreKey) (e : HistEntry) (v : Val)
    (h : kvGet s k = some v) (ht : v.truthy = false) :
    appendSessionHistory s k e =
      (Except.ok (), kvPut s k (Val.histStr [JsItem.entry e]),
        [KVOp.rd k, KVOp.wr k (Val.histStr [JsItem.entry e])]) := by
  simp [appendSessionHistory, h, ht]

lemma append_arr (s : Store) (k : StoreKey) (e : HistEntry) (v : Val)
    (l : List JsItem) (h : kvGet s k = some v) (ht : v.truthy = true)
    (hj : v.jsonParse = some (JsonTop.arr l)) :
    appendSessionHistory s k e =
      (Except.ok (), kvPut s k (Val.histStr ((JsItem.entry e :: l).take 50)),
        [KVOp.rd k, KVOp.wr k (Val.histStr ((JsItem.entry e :: l).take 50))]) := by
  simp [appendSessionHistory, h, ht, hj]

/-- When the stored history is acceptable, the append succeeds and the
key afterwards holds a stringified array of at most 50 items. -/
lemma append_of_histParseOk (s : Store) (k : StoreKey) (e : HistEntry)
    (h : histParseOk (kvGet s k)) :
    ∃ L : List JsItem,
      appendSessionHistory s k e =
        (Except.ok (), kvPut s k (Val.histStr L),
          [KVOp.rd k, KVOp.wr k (Val.histStr L)]) ∧
      L.length ≤ 50 ∧ L.head? = some (JsItem.entry e) := by
  cases hget : kvGet s k with
  | none =>
    exact ⟨[JsItem.entry e], append_absent s k e hget, by simp, by simp⟩
  | some v =>
    rw [hget] at h
    rcases h with ht | ⟨l, hj⟩
    · exact ⟨[JsItem.entry e], append_falsy s k e v hget ht, by simp, by simp⟩
    · by_cases ht : v.truthy = true
      · refine ⟨(JsItem.entry e :: l).take 50, append_arr s k e v l hget ht hj, ?_, ?_⟩
        · exact List.length_take_le 50 (JsItem.entry e :: l)
        · rfl
      · have ht' : v.truthy = false := by simpa [Bool.not_eq_true] using ht
        exact ⟨[JsItem.entry e], append_falsy s k e v hget ht', by simp, by simp⟩

/-! ### createSessionGuard branch lemmas -/

lemma getNumberVal_congr (s1 s2 : Store) (k : StoreKey)
    (h : kvGet s1 k = kvGet s2 k) : getNumberVal s1 k = getNumberVal s2 k := by
  simp [getNumberVal, h]

lemma usage_after_init (s : Store) (nsa nsb : String) (now : ℚ) :
    getNumberVal (getOrInitCreatedAt s (StoreKey.lastReset nsa) now).2.1
      (StoreKey.usageBytes nsb) = getNumberVal s (StoreKey.usageBytes nsb) :=
  getNumberVal_congr _ _ _ (getOrInit_store_get_ne _ _ _ _ (by simp))

lemma active_after_init (s : Store) (nsa nsb : String) (now : ℚ) :
    getNumberVal (getOrInitCreatedAt s (StoreKey.lastReset nsa) now).2.1
      (StoreKey.activeSessions nsb) = getNumberVal s (StoreKey.activeSessions nsb) :=
  getNumberVal_congr _ _ _ (getOrInit_store_get_ne _ _ _ _ (by simp))

lemma hist_after_init (s : Store) (nsa nsb : String) (now : ℚ) :
    kvGet (getOrInitCreatedAt s (StoreKey.lastReset nsa) now).2.1
      (StoreKey.sessionHistory nsb) = kvGet s (StoreKey.sessionHistory nsb) :=
  getOrInit_store_get_ne _ _ _ _ (by simp)

/-- The expiry check as the code performs it is equivalent to the
expiry condition of the spec. -/
lemma codeExpiry_iff (st : Settings) (w : WsConfig) (now : ℚ) (s : Store) :
    (0 < (if 0 < durationDaysLimit st w
        then (getOrInitCreatedAt s (StoreKey.lastReset (keyPfx w.profile)) now).1 +
          durationDaysLimit st w * (24 * 60 * 60 * 1000)
        else 0) ∧
      (if 0 < durationDaysLimit st w
        then (getOrInitCreatedAt s (StoreKey.lastReset (keyPfx w.profile)) now).1 +
          durationDaysLimit st w * (24 * 60 * 60 * 1000)
        else 0) ≤ now)
    ↔ cExpired st w now s := by
  have h24 : (24 * 60 * 60 * 1000 : ℚ) = 86400000 := by norm_num
  by_cases hd : 0 < durationDaysLimit st w
  · rw [if_pos hd, h24]
    unfold cExpired windowStartOf
    constructor
    · rintro ⟨_, h2⟩
      exact ⟨hd, h2⟩
    · rintro ⟨_, h2⟩
      refine ⟨?_, h2⟩
      rcases getOrInit_val_cases s (StoreKey.lastReset (keyPfx w.profile)) now with hc | hc
      · rw [hc] at h2 ⊢
        nlinarith
      · nlinarith
  · rw [if_neg hd]
    unfold cExpired
    simp [hd]

lemma create_denied_expired (st : Settings) (w : WsConfig) (uid : String)
    (now : ℚ) (sid : String) (s : Store) (h : cExpired st w now s) :
    createSessionGuard st w uid now sid s =
      (Except.ok (GuardRes.denied "Configuration expired."),
        (getOrInitCreatedAt s (StoreKey.lastReset (keyPfx w.profile)) now).2.1,
        (getOrInitCreatedAt s (StoreKey.lastReset (keyPfx w.profile)) now).2.2) := by
  have hcode := (codeExpiry_iff st w now s).mpr h
  simp only [createSessionGuard]
  rw [if_pos hcode]

lemma create_denied_volume (st : Settings) (w : WsConfig) (uid : String)
    (now : ℚ) (sid : String) (s : Store)
    (he : ¬cExpired st w now s) (hv : cVolume st w s) :
    createSessionGuard st w uid now sid s =
      (Except.ok (GuardRes.denied "Volume limit reached."),
        (getOrInitCreatedAt s (StoreKey.lastReset (keyPfx w.profile)) now).2.1,
        (getOrInitCreatedAt s (StoreKey.lastReset (keyPfx w.profile)) now).2.2 ++
          [KVOp.rd (StoreKey.usageBytes (keyPfx w.profile))]) := by
  have hcode := (codeExpiry_iff st w now s).not.mpr he
  have hu := usage_after_init s (keyPfx w.profile) (keyPfx w.profile) now
  simp only [createSessionGuard]
  rw [if_neg hcode, hu, if_pos hv]

lemma create_denied_users (st : Settings) (w : WsConfig) (uid : String)
    (now : ℚ) (sid : String) (s : Store)
    (he : ¬cExpired st w now s) (hv : ¬cVolume st w s) (hu : cUsers st w s) :
    createSessionGuard st w uid now sid s =
      (Except.ok (GuardRes.denied "Maximum simultaneous users reached."),
        (getOrInitCreatedAt s (StoreKey.lastReset (keyPfx w.profile)) now).2.1,
        (getOrInitCreatedAt s (StoreKey.lastReset (keyPfx w.profile)) now).2.2 ++
          [KVOp.rd (StoreKey.usageBytes (keyPfx w.profile)),
           KVOp.rd (StoreKey.activeSessions (keyPfx w.profile))]) := by
  have hcode := (codeExpiry_iff st w now s).not.mpr he
  have hus := usage_after_init s (keyPfx w.profile) (keyPfx w.profile) now
  have hac := active_after_init s (keyPfx w.profile) (keyPfx w.profile) now
  simp only [createSessionGuard]
  rw [if_neg hcode, hus, if_neg hv, hac, if_pos hu]

/-- The start history entry a createSessionGuard admission writes. -/
def startEntryOf (w : WsConfig) (uid : String) (now : ℚ) (sid : String)
    (active : ℚ) : HistEntry :=
  { timestamp := now
    etype := "start"
    userID := uid
    profile := if w.profile ≠ "" then w.profile else "default"
    sessionId := sid
    bytes := none
    durationSec := none
    activeSessions := active + 1 }

/-- On admission (all three checks passing), the code increments the
active count and then appends the start entry to the history key; the
final result is determined by that append. -/
lemma create_allow_path (st : Settings) (w : WsConfig) (uid : String)
    (now : ℚ) (sid : String) (s : Store)
    (he : ¬cExpired st w now s) (hv : ¬cVolume st w s) (hu : ¬cUsers st w s) :
    createSessionGuard st w uid now sid s =
      (let ns := keyPfx w.profile
       let s1 := (getOrInitCreatedAt s (StoreKey.lastReset ns) now).2.1
       let t1 := (getOrInitCreatedAt s (StoreKey.lastReset ns) now).2.2
       let active := getNumberVal s (StoreKey.activeSessions ns)
       let s2 := kvPut s1 (StoreKey.activeSessions ns) (Val.numStr (active + 1))
       let ar := appendSessionHistory s2 (StoreKey.sessionHistory ns)
         (startEntryOf w uid now sid active)
       let tAll := t1 ++ [KVOp.rd (StoreKey.usageBytes ns),
         KVOp.rd (StoreKey.activeSessions ns),
         KVOp.wr (StoreKey.activeSessions ns) (Val.numStr (active + 1))] ++ ar.2.2
       match ar.1 with
       | Except.error e => (Except.error e, ar.2.1, tAll)
       | Except.ok _ =>
         (Except.ok (GuardRes.allowed
           { ns := ns, userID := uid, profileName := w.profile,
             sessionId := sid, startedAt := now,
             totalLimit := totalBytesLimit st w }
           { isClosed := false, bufferedBytes := 0, sessionBytes := 0 }),
           ar.2.1, tAll)) := by
  have hcode := (codeExpiry_iff st w now s).not.mpr he
  have hus := usage_after_init s (keyPfx w.profile) (keyPfx w.profile) now
  have hac := active_after_init s (keyPfx w.profile) (keyPfx w.profile) now
  simp only [createSessionGuard, startEntryOf]
  rw [if_neg hcode, hus, if_neg hv, hac, if_neg hu]

/-! ### flushUsage, addBytes and close lemmas -/

lemma flush_mut (c : GuardCtx) (m : GuardMut) (s : Store) (day : String) :
    (flushUsage c m s day).1 = { m with bufferedBytes := 0 } := by
  unfold flushUsage
  by_cases h : m.bufferedBytes = 0
  · simp only [if_pos h]
    cases m
    simp_all
  · simp only [if_neg h]

lemma flush_get_active (c : GuardCtx) (m : GuardMut) (s : Store) (day : String)
    (ns' : String) :
    kvGet (flushUsage c m s day).2.1 (StoreKey.activeSessions ns') =
      kvGet s (StoreKey.activeSessions ns') := by
  unfold flushUsage
  by_cases h : m.bufferedBytes = 0 <;> simp [h]

lemma flush_get_hist (c : GuardCtx) (m : GuardMut) (s : Store) (day : String)
    (ns' : String) :
    kvGet (flushUsage c m s day).2.1 (StoreKey.sessionHistory ns') =
      kvGet s (StoreKey.sessionHistory ns') := by
  unfold flushUsage
  by_cases h : m.bufferedBytes = 0 <;> simp [h]

lemma flush_get_lastReset (c : GuardCtx) (m : GuardMut) (s : Store) (day : String)
    (ns' : String) :
    kvGet (flushUsage c m s day).2.1 (StoreKey.lastReset ns') =
      kvGet s (StoreKey.lastReset ns') := by
  unfold flushUsage
  by_cases h : m.bufferedBytes = 0 <;> simp [h]

/-- Flushing moves exactly the buffered bytes into the stored
cumulative usage of the guard's own namespace. -/
lemma flush_usage_val (c : GuardCtx) (m : GuardMut) (s : Store) (day : String) :
    getNumberVal (flushUsage c m s day).2.1 (StoreKey.usageBytes c.ns) =
      getNumberVal s (StoreKey.usageBytes c.ns) + m.bufferedBytes := by
  unfold flushUsage
  by_cases h : m.bufferedBytes = 0
  · simp [h]
  · simp [h]

lemma append_get_ne (s : Store) (k : StoreKey) (e : HistEntry) (k' : StoreKey)
    (h : k' ≠ k) :
    kvGet (appendSessionHistory s k e).2.1 k' = kvGet s k' := by
  unfold appendSessionHistory
  cases hget : kvGet s k with
  | none => simp [h]
  | some v =>
    by_cases ht : v.truthy = true
    · cases hj : v.jsonParse with
      | none => simp [ht, hj]
      | some top =>
        cases top with
        | arr l => simp [ht, hj, h]
        | nonArr => simp [ht, hj]
    · simp [Bool.not_eq_true] at ht
      simp [ht, h]

lemma append_res_cases (s : Store) (k : StoreKey) (e : HistEntry) :
    (appendSessionHistory s k e).1 = Except.ok () ∨
    (appendSessionHistory s k e).1 = Except.error JsErr.badJson ∨
    (appendSessionHistory s k e).1 = Except.error JsErr.typeErr := by
  unfold appendSessionHistory
  cases hget : kvGet s k with
  | none => simp
  | some v =>
    by_cases ht : v.truthy = true
    · cases hj : v.jsonParse with
      | none => simp [ht, hj]
      | some top =>
        cases top with
        | arr l => simp [ht, hj]
        | nonArr => simp [ht, hj]
    · simp [Bool.not_eq_true] at ht
      simp [ht]

lemma close_closed (c : GuardCtx) (m : GuardMut) (s : Store) (day : String)
    (t : ℚ) (h : m.isClosed = true) :
    close c m s day t = (Except.ok (), m, s, []) := by
  simp [close, h]

/-! ### Claim theorems: resolver and history -/

/-- C2: the Quota Resolver is the pure function of its configuration
inputs given by the spec: maxConcurrentSessions is the profile
usersLimit when defined and strictly positive else the global maxUsers;
validityDurationDays is the profile durationDays whenever defined
(including zero) else the global durationDays; totalVolumeBytes is
floor(resolvedGB * 2^30) with the profile volumeGB preferred when
defined, or 0 when the resolved GB value is not positive. -/
theorem spec_C2 (st : Settings) (w : WsConfig) :
    resolveLimits st w = resolveLimitsSpec st w := by
  unfold resolveLimits resolveLimitsSpec maxUsersLimit durationDaysLimit
    totalBytesLimit volumeGbLimit
  have h30 : (2 : ℚ) ^ 30 = 1024 * 1024 * 1024 := by norm_num
  simp only [EffectiveLimits.mk.injEq]
  refine ⟨?_, trivial, ?_⟩
  · cases hu : w.profileUsersLimit with
    | none => rfl
    | some u =>
      by_cases hp : 0 < u
      · simp [hp, ne_of_gt hp]
      · simp [hp]
  · cases hg : w.profileVolumeGB with
    | none =>
      by_cases hp : 0 < st.configVolumeGB
      · simp [hp, not_le.mpr hp, h30]
      · simp [hp, not_lt.mp hp]
    | some g =>
      by_cases hp : 0 < g
      · simp [hp, not_le.mpr hp, h30]
      · simp [hp, not_lt.mp hp]

/-- C5: appending a start or end entry to a stored history value that
parses to a list writes back the new entry at index 0 followed by the
previous entries in their prior order, truncated at the tail to at most
50 entries; hence the stored history length never exceeds 50. -/
theorem spec_C5 (s : Store) (k : StoreKey) (e : HistEntry) (v : Val)
    (l : List JsItem) (hget : kvGet s k = some v) (ht : v.truthy = true)
    (hj : v.jsonParse = some (JsonTop.arr l)) :
    (appendSessionHistory s k e).1 = Except.ok () ∧
    kvGet (appendSessionHistory s k e).2.1 k =
      some (Val.histStr ((JsItem.entry e :: l).take 50)) ∧
    ((JsItem.entry e :: l).take 50).length ≤ 50 ∧
    ((JsItem.entry e :: l).take 50).head? = some (JsItem.entry e) ∧
    ((JsItem.entry e :: l).take 50).tail = l.take 49 ∧
    ∀ s0 : Store, histParseOk (kvGet s0 k) →
      ∃ L : List JsItem,
        kvGet (appendSessionHistory s0 k e).2.1 k = some (Val.histStr L) ∧
        L.length ≤ 50 := by
  rw [append_arr s k e v l hget ht hj]
  refine ⟨rfl, by simp, List.length_take_le _ _, rfl, rfl, ?_⟩
  intro s0 h0
  obtain ⟨L, hL, hlen, _⟩ := append_of_histParseOk s0 k e h0
  refine ⟨L, ?_, hlen⟩
  rw [hL]
  simp

/-- Witness for C5 at a concrete store holding a two-item history. -/
theorem spec_C5_witness :
    (kvGet [(StoreKey.sessionHistory "limits:", Val.histStr [JsItem.extra 7])]
        (StoreKey.sessionHistory "limits:") = some (Val.histStr [JsItem.extra 7])) ∧
    (Val.histStr [JsItem.extra 7]).truthy = true ∧
    (Val.histStr [JsItem.extra 7]).jsonParse = some (JsonTop.arr [JsItem.extra 7]) ∧
    kvGet (appendSessionHistory
        [(StoreKey.sessionHistory "limits:", Val.histStr [JsItem.extra 7])]
        (StoreKey.sessionHistory "limits:")
        { timestamp := 5, etype := "start", userID := "u", profile := "default",
          sessionId := "sid", bytes := none, durationSec := none,
          activeSessions := 1 }).2.1 (StoreKey.sessionHistory "limits:") =
      some (Val.histStr
        [JsItem.entry
          { timestamp := 5, etype := "start", userID := "u", profile := "default",
            sessionId := "sid", bytes := none, durationSec := none,
            activeSessions := 1 },
         JsItem.extra 7]) := by
  have hget : kvGet [(StoreKey.sessionHistory "limits:", Val.histStr [JsItem.extra 7])]
      (StoreKey.sessionHistory "limits:") = some (Val.histStr [JsItem.extra 7]) := by
    simp [kvGet, List.find?]
  have h := spec_C5 [(StoreKey.sessionHistory "limits:", Val.histStr [JsItem.extra 7])]
    (StoreKey.sessionHistory "limits:")
    { timestamp := 5, etype := "start", userID := "u", profile := "default",
      sessionId := "sid", bytes := none, durationSec := none, activeSessions := 1 }
    (Val.histStr [JsItem.extra 7]) [JsItem.extra 7] hget rfl rfl
  exact ⟨hget, rfl, rfl, h.2.1⟩

/-! ### Claim theorems: admission ordering and close idempotence -/

/-- C1: the three admission checks run in the fixed order expiry,
volume, concurrent-session count; the first failing check determines
the denial reason even when several limits are exceeded at once, and
when no check fails the returned guard has allow = true. -/
theorem spec_C1 (st : Settings) (w : WsConfig) (uid : String) (now : ℚ)
    (sid : String) (s : Store) :
    (cExpired st w now s →
      (createSessionGuard st w uid now sid s).1 =
        Except.ok (GuardRes.denied "Configuration expired.")) ∧
    (¬cExpired st w now s → cVolume st w s →
      (createSessionGuard st w uid now sid s).1 =
        Except.ok (GuardRes.denied "Volume limit reached.")) ∧
    (¬cExpired st w now s → ¬cVolume st w s → cUsers st w s →
      (createSessionGuard st w uid now sid s).1 =
        Except.ok (GuardRes.denied "Maximum simultaneous users reached.")) ∧
    (¬cExpired st w now s → ¬cVolume st w s → ¬cUsers st w s →
      ∀ g, (createSessionGuard st w uid now sid s).1 = Except.ok g →
        g.allow = true) := by
  refine ⟨?_, ?_, ?_, ?_⟩
  · intro h
    rw [create_denied_expired st w uid now sid s h]
  · intro he hv
    rw [create_denied_volume st w uid now sid s he hv]
  · intro he hv hu
    rw [create_denied_users st w uid now sid s he hv hu]
  · intro he hv hu g hg
    rw [create_allow_path st w uid now sid s he hv hu] at hg
    simp only [] at hg
    rcases append_res_cases
        (kvPut (getOrInitCreatedAt s (StoreKey.lastReset (keyPfx w.profile)) now).2.1
          (StoreKey.activeSessions (keyPfx w.profile))
          (Val.numStr (getNumberVal s (StoreKey.activeSessions (keyPfx w.profile)) + 1)))
        (StoreKey.sessionHistory (keyPfx w.profile))
        (startEntryOf w uid now sid
          (getNumberVal s (StoreKey.activeSessions (keyPfx w.profile))))
      with h3 | h3 | h3 <;> rw [h3] at hg <;> simp at hg
    rw [← hg]
    rfl

/-- Witness for C1: four concrete calls, one per check. In the first
three, all later checks also fail, showing the first failing check wins;
the last is a clean admission. -/
theorem spec_C1_witness :
    ((createSessionGuard ⟨1, 1, 1⟩ ⟨"", none, none, none⟩ "u" 86400002 "sid"
        [(StoreKey.lastReset "limits:", Val.numStr 1),
         (StoreKey.usageBytes "limits:", Val.numStr 1073741824),
         (StoreKey.activeSessions "limits:", Val.numStr 5)]).1 =
      Except.ok (GuardRes.denied "Configuration expired.")) ∧
    ((createSessionGuard ⟨1, 0, 1⟩ ⟨"", none, none, none⟩ "u" 7 "sid"
        [(StoreKey.lastReset "limits:", Val.numStr 1),
         (StoreKey.usageBytes "limits:", Val.numStr 1073741824),
         (StoreKey.activeSessions "limits:", Val.numStr 5)]).1 =
      Except.ok (GuardRes.denied "Volume limit reached.")) ∧
    ((createSessionGuard ⟨1, 0, 0⟩ ⟨"", none, none, none⟩ "u" 7 "sid"
        [(StoreKey.lastReset "limits:", Val.numStr 1),
         (StoreKey.activeSessions "limits:", Val.numStr 5)]).1 =
      Except.ok (GuardRes.denied "Maximum simultaneous users reached.")) ∧
    (GuardRes.allow (GuardRes.allowed
        { ns := "limits:", userID := "u", profileName := "", sessionId := "sid",
          startedAt := 1000, totalLimit := 0 }
        { isClosed := false, bufferedBytes := 0, sessionBytes := 0 }) = true) := by
  refine ⟨?_, ?_, ?_, ?_⟩
  · refine (spec_C1 ⟨1, 1, 1⟩ ⟨"", none, none, none⟩ "u" 86400002 "sid" _).1 ?_
    constructor
    · norm_num [durationDaysLimit]
    · have hws : windowStartOf ⟨"", none, none, none⟩ 86400002
          [(StoreKey.lastReset "limits:", Val.numStr 1),
           (StoreKey.usageBytes "limits:", Val.numStr 1073741824),
           (StoreKey.activeSessions "limits:", Val.numStr 5)] = 1 := by
        simp [windowStartOf, getOrInitCreatedAt, kvGet, keyPfx, List.find?,
          Val.truthy, Val.toNum]
      rw [hws]
      norm_num [durationDaysLimit]
  · refine (spec_C1 ⟨1, 0, 1⟩ ⟨"", none, none, none⟩ "u" 7 "sid" _).2.1 ?_ ?_
    · intro h
      have : (0 : ℚ) < 0 := by simpa [durationDaysLimit] using h.1
      exact absurd this (by norm_num)
    · constructor
      · norm_num [totalBytesLimit, volumeGbLimit]
      · have hus : getNumberVal
            [(StoreKey.lastReset "limits:", Val.numStr 1),
             (StoreKey.usageBytes "limits:", Val.numStr 1073741824),
             (StoreKey.activeSessions "limits:", Val.numStr 5)]
            (StoreKey.usageBytes (keyPfx "")) = 1073741824 := by
          rfl
        rw [hus]
        norm_num [totalBytesLimit, volumeGbLimit]
  · refine (spec_C1 ⟨1, 0, 0⟩ ⟨"", none, none, none⟩ "u" 7 "sid" _).2.2.1 ?_ ?_ ?_
    · intro h
      have : (0 : ℚ) < 0 := by simpa [durationDaysLimit] using h.1
      exact absurd this (by norm_num)
    · intro h
      have : (0 : ℚ) < 0 := by simpa [totalBytesLimit, volumeGbLimit] using h.1
      exact absurd this (by norm_num)
    · constructor
      · norm_num [maxUsersLimit]
      · have hac : getNumberVal
            [(StoreKey.lastReset "limits:", Val.numStr 1),
             (StoreKey.activeSessions "limits:", Val.numStr 5)]
            (StoreKey.activeSessions (keyPfx "")) = 5 := by
          rfl
        rw [hac]
        norm_num [maxUsersLimit]
  · refine (spec_C1 ⟨2, 0, 0⟩ ⟨"", none, none, none⟩ "u" 1000 "sid" []).2.2.2
      ?_ ?_ ?_ _ ?_
    · intro h
      have : (0 : ℚ) < 0 := by simpa [durationDaysLimit] using h.1
      exact absurd this (by norm_num)
    · intro h
      have : (0 : ℚ) < 0 := by simpa [totalBytesLimit, volumeGbLimit] using h.1
      exact absurd this (by norm_num)
    · intro h
      have : (2 : ℚ) ≤ 0 := by
        simpa [maxUsersLimit, getNumberVal, kvGet] using h.2
      exact absurd this (by norm_num)
    · simp [createSessionGuard, getOrInitCreatedAt, getNumberVal, kvGet, kvPut,
        appendSessionHistory, keyPfx, durationDaysLimit, totalBytesLimit,
        volumeGbLimit, maxUsersLimit, Val.truthy, Val.toNum, Val.jsonParse]
      norm_num

/-! ### addBytes characterization -/

lemma flush_daily_val (c : GuardCtx) (m : GuardMut) (s : Store) (day : String) :
    getNumberVal (flushUsage c m s day).2.1 (StoreKey.daily c.ns day) =
      getNumberVal s (StoreKey.daily c.ns day) + m.bufferedBytes := by
  unfold flushUsage
  by_cases h : m.bufferedBytes = 0
  · simp [h]
  · simp [h]

/-- addBytes on a positive finite byte count: the returned mutable
state. -/
lemma addBytes_mut (c : GuardCtx) (m : GuardMut) (s : Store) (day : String)
    (b : ℚ) (hb : 0 < b) :
    (addBytes c m s day (JsNum.fin b)).2.1 =
      { isClosed := m.isClosed
        bufferedBytes :=
          if 64 * 1024 ≤ m.bufferedBytes + b then 0 else m.bufferedBytes + b
        sessionBytes := m.sessionBytes + b } := by
  have hb' : ¬b ≤ 0 := not_le.mpr hb
  unfold addBytes
  simp only [if_neg hb']
  by_cases hf : 64 * 1024 ≤ m.bufferedBytes + b
  · simp only [hf, if_true, if_pos hf]
    have hm2 := flush_mut c
      { m with bufferedBytes := m.bufferedBytes + b
               sessionBytes := m.sessionBytes + b } s day
    by_cases hl : 0 < c.totalLimit
    · simp only [if_pos hl]
      split_ifs <;> simpa using hm2
    · simp only [if_neg hl]
      simpa using hm2
  · simp only [hf, if_false, if_neg hf]
    by_cases hl : 0 < c.totalLimit
    · simp only [if_pos hl]
      split_ifs <;> rfl
    · simp only [if_neg hl]

/-- addBytes on a positive finite byte count: the returned store is the
input store, flushed when the buffer reached the 64 KiB threshold. -/
lemma addBytes_store (c : GuardCtx) (m : GuardMut) (s : Store) (day : String)
    (b : ℚ) (hb : 0 < b) :
    (addBytes c m s day (JsNum.fin b)).2.2.1 =
      (if 64 * 1024 ≤ m.bufferedBytes + b then
        (flushUsage c
          { m with bufferedBytes := m.bufferedBytes + b
                   sessionBytes := m.sessionBytes + b } s day).2.1
      else s) := by
  have hb' : ¬b ≤ 0 := not_le.mpr hb
  unfold addBytes
  simp only [if_neg hb']
  by_cases hf : 64 * 1024 ≤ m.bufferedBytes + b
  · simp only [hf, if_true, if_pos hf]
    by_cases hl : 0 < c.totalLimit
    · simp only [if_pos hl]
      split_ifs <;> rfl
    · simp only [if_neg hl]
  · simp only [hf, if_false, if_neg hf]
    by_cases hl : 0 < c.totalLimit
    · simp only [if_pos hl]
      split_ifs <;> rfl
    · simp only [if_neg hl]

/-- addBytes on a positive finite byte count fails exactly when a volume
limit is configured and the stored usage plus all buffered bytes
(including the new ones) strictly exceeds it — whether or not the call
flushed. -/
lemma addBytes_err_iff (c : GuardCtx) (m : GuardMut) (s : Store) (day : String)
    (b : ℚ) (hb : 0 < b) :
    ((addBytes c m s day (JsNum.fin b)).1 =
        Except.error (JsErr.limitHit "Volume limit reached.") ↔
      0 < c.totalLimit ∧
        c.totalLimit < getNumberVal s (StoreKey.usageBytes c.ns) +
          m.bufferedBytes + b) := by
  have hb' : ¬b ≤ 0 := not_le.mpr hb
  unfold addBytes
  simp only [if_neg hb']
  by_cases hf : 64 * 1024 ≤ m.bufferedBytes + b
  · simp only [hf, if_true, if_pos hf]
    have hm2 := flush_mut c
      { m with bufferedBytes := m.bufferedBytes + b
               sessionBytes := m.sessionBytes + b } s day
    have hus := flush_usage_val c
      { m with bufferedBytes := m.bufferedBytes + b
               sessionBytes := m.sessionBytes + b } s day
    by_cases hl : 0 < c.totalLimit
    · simp only [if_pos hl]
      simp only [hm2, hus, add_zero]
      split_ifs with hover
      · constructor
        · intro _
          refine ⟨hl, by linarith⟩
        · intro _
          rfl
      · constructor
        · intro h
          exact absurd h (by simp)
        · rintro ⟨_, h2⟩
          refine absurd ?_ hover
          linarith
    · simp only [if_neg hl]
      constructor
      · intro h
        exact absurd h (by simp)
      · rintro ⟨h1, _⟩
        exact absurd h1 hl
  · simp only [hf, if_false, if_neg hf]
    by_cases hl : 0 < c.totalLimit
    · simp only [if_pos hl]
      split_ifs with hover
      · constructor
        · intro _
          exact ⟨hl, by linarith⟩
        · intro _
          rfl
      · constructor
        · intro h
          exact absurd h (by simp)
        · rintro ⟨_, h2⟩
          refine absurd ?_ hover
          linarith
    · simp only [if_neg hl]
      constructor
      · intro h
        exact absurd h (by simp)
      · rintro ⟨h1, _⟩
        exact absurd h1 hl

/-- addBytes either succeeds or throws the volume-limit error. -/
lemma addBytes_res_cases (c : GuardCtx) (m : GuardMut) (s : Store)
    (day : String) (bytes : JsNum) :
    (addBytes c m s day bytes).1 = Except.ok () ∨
    (addBytes c m s day bytes).1 =
      Except.error (JsErr.limitHit "Volume limit reached.") := by
  unfold addBytes
  cases bytes with
  | nonFinite => simp
  | fin b =>
    by_cases hb' : b ≤ 0
    · simp [hb']
    · simp only [if_neg hb']
      by_cases hf : 64 * 1024 ≤ m.bufferedBytes + b <;>
        by_cases hl : 0 < c.totalLimit <;>
          simp only [hf, hl, if_true, if_false, if_pos, if_neg, not_false_iff] <;>
            first
              | (split_ifs <;> simp)
              | simp

/-! ### Claim theorems: byte accounting -/

/-- C3: a commit of positive finite bytes fails exactly when a volume
limit is configured and the stored usage plus the still-buffered bytes
(after buffering and any flush) strictly exceeds it; with limit 0 a
commit never fails; on failure nothing is rolled back: the session
total still grows and stored-plus-buffered bytes grow by exactly the
committed amount. The concrete scenario (limit 100, commits of 40, 40,
then 30 on a fresh namespace) is the claim's instance. -/
theorem spec_C3 (c : GuardCtx) (m : GuardMut) (s : Store) (day : String)
    (b : ℚ) :
    (0 < b →
      (((addBytes c m s day (JsNum.fin b)).1 =
          Except.error (JsErr.limitHit "Volume limit reached.")) ↔
        (0 < c.totalLimit ∧
          c.totalLimit < getNumberVal s (StoreKey.usageBytes c.ns) +
            m.bufferedBytes + b)) ∧
      ((addBytes c m s day (JsNum.fin b)).2.1).sessionBytes =
        m.sessionBytes + b ∧
      getNumberVal (addBytes c m s day (JsNum.fin b)).2.2.1
          (StoreKey.usageBytes c.ns) +
          ((addBytes c m s day (JsNum.fin b)).2.1).bufferedBytes =
        getNumberVal s (StoreKey.usageBytes c.ns) + m.bufferedBytes + b) ∧
    (c.totalLimit = 0 →
      ∀ bytes : JsNum, (addBytes c m s day bytes).1 = Except.ok ()) ∧
    (addBytes ⟨"limits:", "u", "", "sid", 0, 100⟩ ⟨false, 0, 0⟩ [] "d"
        (JsNum.fin 40) =
      (Except.ok (), ⟨false, 40, 40⟩, [],
        [KVOp.rd (StoreKey.usageBytes "limits:")])) ∧
    (addBytes ⟨"limits:", "u", "", "sid", 0, 100⟩ ⟨false, 40, 40⟩ [] "d"
        (JsNum.fin 40) =
      (Except.ok (), ⟨false, 80, 80⟩, [],
        [KVOp.rd (StoreKey.usageBytes "limits:")])) ∧
    ((addBytes ⟨"limits:", "u", "", "sid", 0, 100⟩ ⟨false, 80, 80⟩ [] "d"
        (JsNum.fin 30)).1 =
      Except.error (JsErr.limitHit "Volume limit reached.")) := by
  refine ⟨?_, ?_, ?_, ?_, ?_⟩
  · intro hb
    refine ⟨addBytes_err_iff c m s day b hb, ?_, ?_⟩
    · rw [addBytes_mut c m s day b hb]
    · rw [addBytes_mut c m s day b hb, addBytes_store c m s day b hb]
      by_cases hf : 64 * 1024 ≤ m.bufferedBytes + b
      · simp only [if_pos hf]
        rw [flush_usage_val]
        simp only []
        ring
      · simp only [if_neg hf]
        ring
  · intro h0 bytes
    unfold addBytes
    cases bytes with
    | nonFinite => rfl
    | fin b0 =>
      by_cases hb' : b0 ≤ 0
      · simp [hb']
      · simp only [if_neg hb']
        have hnl : ¬0 < c.totalLimit := by
          rw [h0]
          norm_num
        by_cases hf : 64 * 1024 ≤ m.bufferedBytes + b0 <;> simp [hf, hnl]
  · simp [addBytes, getNumberVal]
    norm_num
  · simp [addBytes, getNumberVal]
    norm_num
  · simp [addBytes, getNumberVal]
    norm_num

/-- Witness for C3 at concrete inputs: the failing third commit of the
scenario, and an unlimited commit that succeeds. -/
theorem spec_C3_witness :
    ((addBytes ⟨"limits:", "u", "", "sid", 0, 100⟩ ⟨false, 80, 80⟩ [] "d"
        (JsNum.fin 30)).1 =
      Except.error (JsErr.limitHit "Volume limit reached.")) ∧
    ((addBytes ⟨"limits:", "u", "", "sid", 0, 0⟩ ⟨false, 0, 0⟩ [] "d"
        (JsNum.fin 999999999)).1 = Except.ok ()) := by
  constructor
  · refine ((spec_C3 ⟨"limits:", "u", "", "sid", 0, 100⟩ ⟨false, 80, 80⟩ []
      "d" 30).1 (by norm_num)).1.mpr ⟨by norm_num, ?_⟩
    simp [getNumberVal]
    norm_num
  · exact (spec_C3 ⟨"limits:", "u", "", "sid", 0, 0⟩ ⟨false, 0, 0⟩ [] "d"
      1).2.1 rfl (JsNum.fin 999999999)

/-- C9: closing a guard does not disable byte accounting: addBytes
ignores the isClosed flag, so a commit after close still buffers the
bytes and the session total, still flushes at the 64 KiB threshold into
the cumulative and daily counters, and still performs the volume check
(and can fail); and since the guard is already closed, a further close
is a complete no-op, so sub-threshold post-close bytes are never
flushed. -/
theorem spec_C9 (c : GuardCtx) (m : GuardMut) (s : Store) (day : String)
    (b : ℚ) (hc : m.isClosed = true) (hb : 0 < b) :
    ((addBytes c m s day (JsNum.fin b)).2.1).isClosed = true ∧
    ((addBytes c m s day (JsNum.fin b)).2.1).sessionBytes =
      m.sessionBytes + b ∧
    (¬64 * 1024 ≤ m.bufferedBytes + b →
      ((addBytes c m s day (JsNum.fin b)).2.1).bufferedBytes =
        m.bufferedBytes + b ∧
      (addBytes c m s day (JsNum.fin b)).2.2.1 = s) ∧
    (64 * 1024 ≤ m.bufferedBytes + b →
      ((addBytes c m s day (JsNum.fin b)).2.1).bufferedBytes = 0 ∧
      getNumberVal (addBytes c m s day (JsNum.fin b)).2.2.1
          (StoreKey.usageBytes c.ns) =
        getNumberVal s (StoreKey.usageBytes c.ns) + m.bufferedBytes + b ∧
      getNumberVal (addBytes c m s day (JsNum.fin b)).2.2.1
          (StoreKey.daily c.ns day) =
        getNumberVal s (StoreKey.daily c.ns day) + m.bufferedBytes + b) ∧
    ((addBytes c m s day (JsNum.fin b)).1 =
        Except.error (JsErr.limitHit "Volume limit reached.") ↔
      0 < c.totalLimit ∧
        c.totalLimit < getNumberVal s (StoreKey.usageBytes c.ns) +
          m.bufferedBytes + b) ∧
    close c (addBytes c m s day (JsNum.fin b)).2.1
        (addBytes c m s day (JsNum.fin b)).2.2.1 day 0 =
      (Except.ok (), (addBytes c m s day (JsNum.fin b)).2.1,
        (addBytes c m s day (JsNum.fin b)).2.2.1, []) := by
  have hmut := addBytes_mut c m s day b hb
  have hstore := addBytes_store c m s day b hb
  refine ⟨?_, ?_, ?_, ?_, addBytes_err_iff c m s day b hb, ?_⟩
  · rw [hmut]
    simp [hc]
  · rw [hmut]
  · intro hf
    rw [hmut, hstore]
    simp [hf]
  · intro hf
    rw [hmut, hstore]
    simp only [if_pos hf]
    refine ⟨by trivial, ?_, ?_⟩
    · rw [flush_usage_val]
      simp only []
      ring
    · rw [flush_daily_val]
      simp only []
      ring
  · refine close_closed c _ _ day 0 ?_
    rw [hmut]
    simp [hc]

/-- Witness for C9: a commit on an already-closed guard still counts
the bytes and still fails the volume check. -/
theorem spec_C9_witness :
    ((addBytes ⟨"limits:", "u", "", "sid", 0, 100⟩ ⟨true, 80, 80⟩ [] "d"
        (JsNum.fin 30)).2.1).isClosed = true ∧
    ((addBytes ⟨"limits:", "u", "", "sid", 0, 100⟩ ⟨true, 80, 80⟩ [] "d"
        (JsNum.fin 30)).2.1).sessionBytes = 110 ∧
    ((addBytes ⟨"limits:", "u", "", "sid", 0, 100⟩ ⟨true, 80, 80⟩ [] "d"
        (JsNum.fin 30)).1 =
      Except.error (JsErr.limitHit "Volume limit reached.")) := by
  have h := spec_C9 ⟨"limits:", "u", "", "sid", 0, 100⟩ ⟨true, 80, 80⟩ [] "d"
    30 rfl (by norm_num)
  refine ⟨h.1, ?_, ?_⟩
  · rw [h.2.1]
    norm_num
  · refine h.2.2.2.2.1.mpr ⟨by norm_num, ?_⟩
    simp [getNumberVal]
    norm_num

/-- The end history entry a first close appends (limits.ts 112-121).
The sessionBytes, the post-decrement active count, and the close-time
Date.now() value are the parameters. -/
def endEntryOf (c : GuardCtx) (sessionBytes finalActive closeNow : ℚ) :
    HistEntry :=
  { timestamp := closeNow
    etype := "end"
    userID := c.userID
    profile := if c.profileName ≠ "" then c.profileName else "default"
    sessionId := c.sessionId
    bytes := some sessionBytes
    durationSec :=
      some (max 1 ((Int.floor ((closeNow - c.startedAt) / 1000) : ℤ) : ℚ))
    activeSessions := finalActive }

/-- Full effect of a first close: the guard is marked closed with an
empty buffer, the buffered bytes are flushed into the cumulative and
daily counters, the active count is written floor-clamped down by one,
and (when the stored history is acceptable) the end entry is appended
at the head of the history. -/
lemma close_first_full (c : GuardCtx) (m : GuardMut) (s : Store)
    (day : String) (t : ℚ) (hcl : m.isClosed = false) :
    (close c m s day t).2.1 =
      { isClosed := true, bufferedBytes := 0,
        sessionBytes := m.sessionBytes } ∧
    getNumberVal (close c m s day t).2.2.1 (StoreKey.usageBytes c.ns) =
      getNumberVal s (StoreKey.usageBytes c.ns) + m.bufferedBytes ∧
    getNumberVal (close c m s day t).2.2.1 (StoreKey.daily c.ns day) =
      getNumberVal s (StoreKey.daily c.ns day) + m.bufferedBytes ∧
    kvGet (close c m s day t).2.2.1 (StoreKey.activeSessions c.ns) =
      some (Val.numStr
        (max (getNumberVal s (StoreKey.activeSessions c.ns) - 1) 0)) ∧
    (histParseOk (kvGet s (StoreKey.sessionHistory c.ns)) →
      ∃ L : List JsItem,
        kvGet (close c m s day t).2.2.1 (StoreKey.sessionHistory c.ns) =
          some (Val.histStr L) ∧
        L.head? = some (JsItem.entry (endEntryOf c m.sessionBytes
          (max (getNumberVal s (StoreKey.activeSessions c.ns) - 1) 0) t))) := by
  have hop : ¬m.isClosed = true := by simp [hcl]
  unfold close
  rw [if_neg hop]
  dsimp only []
  have hmut := flush_mut c { m with isClosed := true } s day
  have hflush_a : getNumberVal
      (flushUsage c { m with isClosed := true } s day).2.1
      (StoreKey.activeSessions c.ns) =
      getNumberVal s (StoreKey.activeSessions c.ns) :=
    getNumberVal_congr _ _ _ (flush_get_active c _ s day c.ns)
  rw [hflush_a, hmut]
  dsimp only []
  refine ⟨rfl, ?_, ?_, ?_, ?_⟩
  · rw [getNumberVal_congr _ _ _ (append_get_ne _ _ _ _ (by simp)),
      getNumberVal_put_ne _ _ _ _ (by simp), flush_usage_val]
  · rw [getNumberVal_congr _ _ _ (append_get_ne _ _ _ _ (by simp)),
      getNumberVal_put_ne _ _ _ _ (by simp), flush_daily_val]
  · rw [append_get_ne _ _ _ _ (by simp), kvGet_put_self]
  · intro hh
    have hh3 : histParseOk (kvGet
        (kvPut (flushUsage c { m with isClosed := true } s day).2.1
          (StoreKey.activeSessions c.ns)
          (Val.numStr
            (max (getNumberVal s (StoreKey.activeSessions c.ns) - 1) 0)))
        (StoreKey.sessionHistory c.ns)) := by
      rw [kvGet_put_ne _ _ _ _ (by simp), flush_get_hist]
      exact hh
    obtain ⟨L, hap, _, hhead⟩ := append_of_histParseOk _ _ _ hh3
    rw [hap]
    refine ⟨L, by simp, ?_⟩
    simpa [endEntryOf] using hhead

/-- C8: close is idempotent: once the guard is closed, every further
close call returns immediately, leaving the in-memory guard state and
the store untouched and performing no store operation; only the first
close flushes the remaining buffered bytes into the cumulative and
daily counters, writes the floor-clamped decremented active-session
count, and appends the end history entry. -/
theorem spec_C8 (c : GuardCtx) (m : GuardMut) (s : Store) (day : String)
    (t : ℚ) :
    (m.isClosed = true → close c m s day t = (Except.ok (), m, s, [])) ∧
    (m.isClosed = false →
      (close c m s day t).2.1 =
        { isClosed := true, bufferedBytes := 0,
          sessionBytes := m.sessionBytes } ∧
      getNumberVal (close c m s day t).2.2.1 (StoreKey.usageBytes c.ns) =
        getNumberVal s (StoreKey.usageBytes c.ns) + m.bufferedBytes ∧
      getNumberVal (close c m s day t).2.2.1 (StoreKey.daily c.ns day) =
        getNumberVal s (StoreKey.daily c.ns day) + m.bufferedBytes ∧
      kvGet (close c m s day t).2.2.1 (StoreKey.activeSessions c.ns) =
        some (Val.numStr
          (max (getNumberVal s (StoreKey.activeSessions c.ns) - 1) 0)) ∧
      (histParseOk (kvGet s (StoreKey.sessionHistory c.ns)) →
        ∃ L : List JsItem,
          kvGet (close c m s day t).2.2.1 (StoreKey.sessionHistory c.ns) =
            some (Val.histStr L) ∧
          L.head? = some (JsItem.entry (endEntryOf c m.sessionBytes
            (max (getNumberVal s (StoreKey.activeSessions c.ns) - 1) 0)
            t)))) := by
  constructor
  · intro h
    exact close_closed c m s day t h
  · intro h
    exact close_first_full c m s day t h

/-- Witness for C8: a second close is the identity on a closed guard
with a nonempty buffer; a first close with 5 buffered bytes flushes
them into both counters, decrements the count from 2 to 1, and appends
the end entry. -/
theorem spec_C8_witness :
    (close
        { ns := "limits:", userID := "u", profileName := "", sessionId := "sid",
          startedAt := 0, totalLimit := 0 }
        { isClosed := true, bufferedBytes := 3, sessionBytes := 3 }
        [] "2024-01-01" 9 =
      (Except.ok (), { isClosed := true, bufferedBytes := 3, sessionBytes := 3 },
        [], [])) ∧
    ((close
        { ns := "limits:", userID := "u", profileName := "", sessionId := "sid",
          startedAt := 0, totalLimit := 0 }
        { isClosed := false, bufferedBytes := 5, sessionBytes := 7 }
        [(StoreKey.activeSessions "limits:", Val.numStr 2)] "2024-01-01" 9).2.1 =
      { isClosed := true, bufferedBytes := 0, sessionBytes := 7 }) ∧
    getNumberVal (close
        { ns := "limits:", userID := "u", profileName := "", sessionId := "sid",
          startedAt := 0, totalLimit := 0 }
        { isClosed := false, bufferedBytes := 5, sessionBytes := 7 }
        [(StoreKey.activeSessions "limits:", Val.numStr 2)] "2024-01-01" 9).2.2.1
      (StoreKey.usageBytes "limits:") = 5 ∧
    getNumberVal (close
        { ns := "limits:", userID := "u", profileName := "", sessionId := "sid",
          startedAt := 0, totalLimit := 0 }
        { isClosed := false, bufferedBytes := 5, sessionBytes := 7 }
        [(StoreKey.activeSessions "limits:", Val.numStr 2)] "2024-01-01" 9).2.2.1
      (StoreKey.daily "limits:" "2024-01-01") = 5 ∧
    kvGet (close
        { ns := "limits:", userID := "u", profileName := "", sessionId := "sid",
          startedAt := 0, totalLimit := 0 }
        { isClosed := false, bufferedBytes := 5, sessionBytes := 7 }
        [(StoreKey.activeSessions "limits:", Val.numStr 2)] "2024-01-01" 9).2.2.1
      (StoreKey.activeSessions "limits:") = some (Val.numStr 1) ∧
    ∃ L : List JsItem,
      kvGet (close
          { ns := "limits:", userID := "u", profileName := "", sessionId := "sid",
            startedAt := 0, totalLimit := 0 }
          { isClosed := false, bufferedBytes := 5, sessionBytes := 7 }
          [(StoreKey.activeSessions "limits:", Val.numStr 2)] "2024-01-01" 9).2.2.1
        (StoreKey.sessionHistory "limits:") = some (Val.histStr L) ∧
      L.head? = some (JsItem.entry (endEntryOf
        { ns := "limits:", userID := "u", profileName := "", sessionId := "sid",
          startedAt := 0, totalLimit := 0 } 7 1 9)) := by
  have h := (spec_C8
    { ns := "limits:", userID := "u", profileName := "", sessionId := "sid",
      startedAt := 0, totalLimit := 0 }
    { isClosed := false, bufferedBytes := 5, sessionBytes := 7 }
    [(StoreKey.activeSessions "limits:", Val.numStr 2)] "2024-01-01" 9).2 rfl
  obtain ⟨hmut, hus, hdy, hac, hhist⟩ := h
  have ha2 : getNumberVal [(StoreKey.activeSessions "limits:", Val.numStr 2)]
      (StoreKey.activeSessions "limits:") = 2 := rfl
  have hu0 : getNumberVal [(StoreKey.activeSessions "limits:", Val.numStr 2)]
      (StoreKey.usageBytes "limits:") = 0 := rfl
  have hd0 : getNumberVal [(StoreKey.activeSessions "limits:", Val.numStr 2)]
      (StoreKey.daily "limits:" "2024-01-01") = 0 := rfl
  have hm1 : max ((2 : ℚ) - 1) 0 = 1 := by norm_num
  refine ⟨(spec_C8 _ _ _ _ _).1 rfl, hmut, ?_, ?_, ?_, ?_⟩
  · rw [hus, hu0]
    norm_num
  · rw [hdy, hd0]
    norm_num
  · rw [hac, ha2, hm1]
  · obtain ⟨L, hL, hhead⟩ := hhist trivial
    rw [ha2, hm1] at hhead
    exact ⟨L, hL, hhead⟩

/-! ### Shape lemmas for whole-call reasoning -/

/-- Complete shape of an appendSessionHistory call: either it succeeds
and performs exactly one read and one write of the history key, or it
throws and performs exactly one read. -/
lemma append_parts (s : Store) (k : StoreKey) (e : HistEntry) :
    (∃ v', appendSessionHistory s k e =
      (Except.ok (), kvPut s k v', [KVOp.rd k, KVOp.wr k v'])) ∨
    (∃ er, appendSessionHistory s k e = (Except.error er, s, [KVOp.rd k])) := by
  unfold appendSessionHistory
  cases hget : kvGet s k with
  | none => exact Or.inl ⟨_, rfl⟩
  | some v =>
    by_cases ht : v.truthy = true
    · cases hj : v.jsonParse with
      | none =>
        simp only [ht, if_true, hj]
        exact Or.inr ⟨_, rfl⟩
      | some top =>
        cases top with
        | arr l =>
          simp only [ht, if_true, hj]
          exact Or.inl ⟨_, rfl⟩
        | nonArr =>
          simp only [ht, if_true, hj]
          exact Or.inr ⟨_, rfl⟩
    · have ht' : v.truthy = false := by
        simpa [Bool.not_eq_true] using ht
      simp only [ht', if_false, Bool.false_eq_true]
      exact Or.inl ⟨_, rfl⟩

/-- Every stored window-start value is either unacceptable or a truthy
string parsing to some finite positive number. -/
lemma windowBad_or_good (o : Option Val) :
    windowBad o ∨
    ∃ v p, o = some v ∧ v.truthy = true ∧ v.toNum = some p ∧ 0 < p := by
  cases o with
  | none => exact Or.inl trivial
  | some v =>
    by_cases h : v.truthy = true ∧ ∃ p, v.toNum = some p ∧ 0 < p
    · obtain ⟨ht, p, hn, hp⟩ := h
      exact Or.inr ⟨v, p, rfl, ht, hn, hp⟩
    · exact Or.inl h

/-- After getOrInitCreatedAt, the key either still reads its old value
or held an unacceptable value and now reads the written now. -/
lemma getOrInit_lastReset_own (s : Store) (k : StoreKey) (now : ℚ) :
    kvGet (getOrInitCreatedAt s k now).2.1 k = kvGet s k ∨
    (windowBad (kvGet s k) ∧
      kvGet (getOrInitCreatedAt s k now).2.1 k = some (Val.numStr now)) := by
  rcases windowBad_or_good (kvGet s k) with hbad | ⟨v, p, hget, ht, hn, hp⟩
  · rw [getOrInit_bad s k now hbad]
    exact Or.inr ⟨hbad, by simp⟩
  · rw [getOrInit_good s k now v p hget ht hn hp]
    exact Or.inl rfl

/-! ### Claim theorems: malformed history on admission -/

/-- Apart from the window-start initialization, a createSessionGuard
call only ever writes the active-session count and the session history
of its own namespace: every other key reads as it did right after
getOrInitCreatedAt. -/
lemma create_after_init (st : Settings) (w : WsConfig) (uid : String)
    (now : ℚ) (sid : String) (s : Store) (k' : StoreKey)
    (ha : k' ≠ StoreKey.activeSessions (keyPfx w.profile))
    (hh : k' ≠ StoreKey.sessionHistory (keyPfx w.profile)) :
    kvGet (createSessionGuard st w uid now sid s).2.1 k' =
      kvGet (getOrInitCreatedAt s
        (StoreKey.lastReset (keyPfx w.profile)) now).2.1 k' := by
  by_cases he : cExpired st w now s
  · rw [create_denied_expired st w uid now sid s he]
  · by_cases hv : cVolume st w s
    · rw [create_denied_volume st w uid now sid s he hv]
    · by_cases hu : cUsers st w s
      · rw [create_denied_users st w uid now sid s he hv hu]
      · rw [create_allow_path st w uid now sid s he hv hu]
        dsimp only []
        rcases append_parts
            (kvPut (getOrInitCreatedAt s
              (StoreKey.lastReset (keyPfx w.profile)) now).2.1
              (StoreKey.activeSessions (keyPfx w.profile))
              (Val.numStr (getNumberVal s
                (StoreKey.activeSessions (keyPfx w.profile)) + 1)))
            (StoreKey.sessionHistory (keyPfx w.profile))
            (startEntryOf w uid now sid
              (getNumberVal s (StoreKey.activeSessions (keyPfx w.profile))))
          with ⟨v', hap⟩ | ⟨er, hap⟩
        · rw [hap]
          dsimp only []
          rw [kvGet_put_ne _ _ _ _ hh, kvGet_put_ne _ _ _ _ ha]
        · rw [hap]
          dsimp only []
          rw [kvGet_put_ne _ _ _ _ ha]

/-- Every write performed by a createSessionGuard call either comes
from getOrInitCreatedAt or targets the active-session count or the
session history of the call's namespace. -/
lemma create_wr_keys (st : Settings) (w : WsConfig) (uid : String)
    (now : ℚ) (sid : String) (s : Store) (k' : StoreKey) (u : Val)
    (hm : KVOp.wr k' u ∈ (createSessionGuard st w uid now sid s).2.2) :
    KVOp.wr k' u ∈ (getOrInitCreatedAt s
      (StoreKey.lastReset (keyPfx w.profile)) now).2.2 ∨
    k' = StoreKey.activeSessions (keyPfx w.profile) ∨
    k' = StoreKey.sessionHistory (keyPfx w.profile) := by
  by_cases he : cExpired st w now s
  · rw [create_denied_expired st w uid now sid s he] at hm
    exact Or.inl hm
  · by_cases hv : cVolume st w s
    · rw [create_denied_volume st w uid now sid s he hv] at hm
      simp only [List.mem_append, List.mem_singleton] at hm
      rcases hm with hm | hm
      · exact Or.inl hm
      · exact absurd hm (by simp)
    · by_cases hu : cUsers st w s
      · rw [create_denied_users st w uid now sid s he hv hu] at hm
        simp only [List.mem_append, List.mem_cons, List.mem_singleton] at hm
        rcases hm with hm | hm | hm
        · exact Or.inl hm
        · exact absurd hm (by simp)
        · simp at hm
      · rw [create_allow_path st w uid now sid s he hv hu] at hm
        dsimp only [] at hm
        rcases append_parts
            (kvPut (getOrInitCreatedAt s
              (StoreKey.lastReset (keyPfx w.profile)) now).2.1
              (StoreKey.activeSessions (keyPfx w.profile))
              (Val.numStr (getNumberVal s
                (StoreKey.activeSessions (keyPfx w.profile)) + 1)))
            (StoreKey.sessionHistory (keyPfx w.profile))
            (startEntryOf w uid now sid
              (getNumberVal s (StoreKey.activeSessions (keyPfx w.profile))))
          with ⟨v', hap⟩ | ⟨er, hap⟩ <;> rw [hap] at hm <;> dsimp only [] at hm <;>
            simp at hm <;> tauto

/-! ### Claim theorems: window-start immutability -/

/-- C6 (amended): when the WindowStart key holds a value that parses to
a finite strictly positive number, a createSessionGuard call reads that
value back as the window start, writes nothing to that key, and leaves
it unchanged; a write of now occurs exactly when the key is absent,
empty, or holds a value that does not so parse. -/
theorem spec_C6 (st : Settings) (w : WsConfig) (uid : String) (now : ℚ)
    (sid : String) (s : Store) :
    (∀ v p, kvGet s (StoreKey.lastReset (keyPfx w.profile)) = some v →
      v.truthy = true → v.toNum = some p → 0 < p →
      windowStartOf w now s = p ∧
      (∀ u, KVOp.wr (StoreKey.lastReset (keyPfx w.profile)) u ∉
        (createSessionGuard st w uid now sid s).2.2) ∧
      kvGet (createSessionGuard st w uid now sid s).2.1
        (StoreKey.lastReset (keyPfx w.profile)) = some v) ∧
    (windowBad (kvGet s (StoreKey.lastReset (keyPfx w.profile))) →
      windowStartOf w now s = now ∧
      kvGet (createSessionGuard st w uid now sid s).2.1
        (StoreKey.lastReset (keyPfx w.profile)) = some (Val.numStr now)) := by
  constructor
  · intro v p hget ht hn hp
    have hg := getOrInit_good s (StoreKey.lastReset (keyPfx w.profile)) now
      v p hget ht hn hp
    refine ⟨?_, ?_, ?_⟩
    · rw [windowStartOf, hg]
    · intro u hmem
      rcases create_wr_keys st w uid now sid s _ u hmem with h1 | h1 | h1
      · rw [hg] at h1
        simp at h1
      · simp at h1
      · simp at h1
    · rw [create_after_init st w uid now sid s _ (by simp) (by simp), hg]
      exact hget
  · intro hbad
    have hg := getOrInit_bad s (StoreKey.lastReset (keyPfx w.profile)) now hbad
    refine ⟨?_, ?_⟩
    · rw [windowStartOf, hg]
    · rw [create_after_init st w uid now sid s _ (by simp) (by simp), hg]
      simp

/-- Counterexample for C6 as stated: the WindowStart key holds the
value "0" (a value, so per the claim no write may happen), yet the call
overwrites it with now and uses now as the window start. -/
theorem spec_C6_cex :
    kvGet [(StoreKey.lastReset "limits:", Val.numStr 0)]
        (StoreKey.lastReset "limits:") = some (Val.numStr 0) ∧
    KVOp.wr (StoreKey.lastReset "limits:") (Val.numStr 1000) ∈
      (createSessionGuard ⟨0, 0, 0⟩ ⟨"", none, none, none⟩ "u" 1000 "sid"
        [(StoreKey.lastReset "limits:", Val.numStr 0)]).2.2 ∧
    windowStartOf ⟨"", none, none, none⟩ 1000
      [(StoreKey.lastReset "limits:", Val.numStr 0)] = 1000 ∧
    kvGet (createSessionGuard ⟨0, 0, 0⟩ ⟨"", none, none, none⟩ "u" 1000 "sid"
        [(StoreKey.lastReset "limits:", Val.numStr 0)]).2.1
        (StoreKey.lastReset "limits:") = some (Val.numStr 1000) := by
  refine ⟨rfl, ?_, ?_, ?_⟩
  · simp [createSessionGuard, getOrInitCreatedAt, getNumberVal, kvGet, kvPut,
      appendSessionHistory, keyPfx, durationDaysLimit, totalBytesLimit,
      volumeGbLimit, maxUsersLimit, Val.truthy, Val.toNum, Val.jsonParse]
  · simp [windowStartOf, getOrInitCreatedAt, kvGet, keyPfx, Val.truthy,
      Val.toNum]
  · simp [createSessionGuard, getOrInitCreatedAt, getNumberVal, kvGet, kvPut,
      appendSessionHistory, keyPfx, durationDaysLimit, totalBytesLimit,
      volumeGbLimit, maxUsersLimit, Val.truthy, Val.toNum, Val.jsonParse]

/-- Witness for C6 (amended): a stored positive window start is read
back unchanged and nothing is written; a malformed one is overwritten. -/
theorem spec_C6_witness :
    (windowStartOf ⟨"", none, none, none⟩ 1000
        [(StoreKey.lastReset "limits:", Val.numStr 7)] = 7 ∧
      kvGet (createSessionGuard ⟨0, 0, 0⟩ ⟨"", none, none, none⟩ "u" 1000 "sid"
          [(StoreKey.lastReset "limits:", Val.numStr 7)]).2.1
        (StoreKey.lastReset "limits:") = some (Val.numStr 7)) ∧
    (windowStartOf ⟨"", none, none, none⟩ 1000
        [(StoreKey.lastReset "limits:", Val.rawStr true none none)] = 1000 ∧
      kvGet (createSessionGuard ⟨0, 0, 0⟩ ⟨"", none, none, none⟩ "u" 1000 "sid"
          [(StoreKey.lastReset "limits:", Val.rawStr true none none)]).2.1
        (StoreKey.lastReset "limits:") = some (Val.numStr 1000)) := by
  constructor
  · have h := (spec_C6 ⟨0, 0, 0⟩ ⟨"", none, none, none⟩ "u" 1000 "sid"
      [(StoreKey.lastReset "limits:", Val.numStr 7)]).1
      (Val.numStr 7) 7 rfl rfl rfl (by norm_num)
    exact ⟨h.1, h.2.2⟩
  · have h := (spec_C6 ⟨0, 0, 0⟩ ⟨"", none, none, none⟩ "u" 1000 "sid"
      [(StoreKey.lastReset "limits:", Val.rawStr true none none)]).2 ?_
    · exact h
    · intro hc
      rcases hc with ⟨_, p, hp, _⟩
      simp [Val.toNum] at hp

/-! ### Claim theorems: denial frame property -/

/-- C7 (amended): a denied createSessionGuard call leaves the stored
ActiveSessionCount, CumulativeUsageBytes, DailyUsageBytes and
SessionHistory of every namespace exactly as they were; other
namespaces' WindowStart keys are untouched, and the call's own
WindowStart key is either unchanged or — when it was absent, empty, or
held a value not parsing to a finite positive number — overwritten
with now. -/
theorem spec_C7 (st : Settings) (w : WsConfig) (uid : String) (now : ℚ)
    (sid : String) (s : Store) (r : String)
    (h : (createSessionGuard st w uid now sid s).1 =
      Except.ok (GuardRes.denied r)) :
    (∀ ns, kvGet (createSessionGuard st w uid now sid s).2.1
      (StoreKey.activeSessions ns) = kvGet s (StoreKey.activeSessions ns)) ∧
    (∀ ns, kvGet (createSessionGuard st w uid now sid s).2.1
      (StoreKey.usageBytes ns) = kvGet s (StoreKey.usageBytes ns)) ∧
    (∀ ns day, kvGet (createSessionGuard st w uid now sid s).2.1
      (StoreKey.daily ns day) = kvGet s (StoreKey.daily ns day)) ∧
    (∀ ns, kvGet (createSessionGuard st w uid now sid s).2.1
      (StoreKey.sessionHistory ns) = kvGet s (StoreKey.sessionHistory ns)) ∧
    (∀ ns, ns ≠ keyPfx w.profile →
      kvGet (createSessionGuard st w uid now sid s).2.1
        (StoreKey.lastReset ns) = kvGet s (StoreKey.lastReset ns)) ∧
    (kvGet (createSessionGuard st w uid now sid s).2.1
        (StoreKey.lastReset (keyPfx w.profile)) =
      kvGet s (StoreKey.lastReset (keyPfx w.profile)) ∨
      (windowBad (kvGet s (StoreKey.lastReset (keyPfx w.profile))) ∧
        kvGet (createSessionGuard st w uid now sid s).2.1
          (StoreKey.lastReset (keyPfx w.profile)) =
            some (Val.numStr now))) := by
  have hstore : (createSessionGuard st w uid now sid s).2.1 =
      (getOrInitCreatedAt s (StoreKey.lastReset (keyPfx w.profile)) now).2.1 := by
    by_cases he : cExpired st w now s
    · rw [create_denied_expired st w uid now sid s he]
    · by_cases hv : cVolume st w s
      · rw [create_denied_volume st w uid now sid s he hv]
      · by_cases hu : cUsers st w s
        · rw [create_denied_users st w uid now sid s he hv hu]
        · exfalso
          rw [create_allow_path st w uid now sid s he hv hu] at h
          dsimp only [] at h
          rcases append_parts
              (kvPut (getOrInitCreatedAt s
                (StoreKey.lastReset (keyPfx w.profile)) now).2.1
                (StoreKey.activeSessions (keyPfx w.profile))
                (Val.numStr (getNumberVal s
                  (StoreKey.activeSessions (keyPfx w.profile)) + 1)))
              (StoreKey.sessionHistory (keyPfx w.profile))
              (startEntryOf w uid now sid
                (getNumberVal s (StoreKey.activeSessions (keyPfx w.profile))))
            with ⟨v', hap⟩ | ⟨er, hap⟩ <;> rw [hap] at h <;> simp at h
  rw [hstore]
  refine ⟨?_, ?_, ?_, ?_, ?_, ?_⟩
  · intro ns
    exact getOrInit_store_get_ne _ _ _ _ (by simp)
  · intro ns
    exact getOrInit_store_get_ne _ _ _ _ (by simp)
  · intro ns day
    exact getOrInit_store_get_ne _ _ _ _ (by simp)
  · intro ns
    exact getOrInit_store_get_ne _ _ _ _ (by simp)
  · intro ns hns
    exact getOrInit_store_get_ne _ _ _ _ (by simp [hns])
  · exact getOrInit_lastReset_own s _ now

/-- Counterexample for C7 as stated: a call denied for volume whose
namespace's WindowStart key held a (malformed) value and was
nevertheless overwritten — the write is not confined to a previously
absent key. -/
theorem spec_C7_cex :
    ((createSessionGuard ⟨0, 0, 5 / 1073741824⟩ ⟨"", none, none, none⟩ "u"
        1000 "sid"
        [(StoreKey.lastReset "limits:", Val.rawStr true none none),
         (StoreKey.usageBytes "limits:", Val.numStr 5)]).1 =
      Except.ok (GuardRes.denied "Volume limit reached.")) ∧
    kvGet [(StoreKey.lastReset "limits:", Val.rawStr true none none),
        (StoreKey.usageBytes "limits:", Val.numStr 5)]
      (StoreKey.lastReset "limits:") = some (Val.rawStr true none none) ∧
    kvGet (createSessionGuard ⟨0, 0, 5 / 1073741824⟩ ⟨"", none, none, none⟩ "u"
        1000 "sid"
        [(StoreKey.lastReset "limits:", Val.rawStr true none none),
         (StoreKey.usageBytes "limits:", Val.numStr 5)]).2.1
      (StoreKey.lastReset "limits:") = some (Val.numStr 1000) := by
  refine ⟨?_, rfl, ?_⟩
  · simp [createSessionGuard, getOrInitCreatedAt, getNumberVal, kvGet, kvPut,
      keyPfx, durationDaysLimit, totalBytesLimit, volumeGbLimit,
      Val.truthy, Val.toNum]
    norm_num
  · simp [createSessionGuard, getOrInitCreatedAt, getNumberVal, kvGet, kvPut,
      keyPfx, durationDaysLimit, totalBytesLimit, volumeGbLimit,
      Val.truthy, Val.toNum]
    norm_num

/-- Witness for C7 (amended) at a concrete denied call. -/
theorem spec_C7_witness :
    kvGet (createSessionGuard ⟨1, 0, 0⟩ ⟨"", none, none, none⟩ "u" 7 "sid"
        [(StoreKey.lastReset "limits:", Val.numStr 3),
         (StoreKey.activeSessions "limits:", Val.numStr 5)]).2.1
      (StoreKey.activeSessions "limits:") = some (Val.numStr 5) ∧
    kvGet (createSessionGuard ⟨1, 0, 0⟩ ⟨"", none, none, none⟩ "u" 7 "sid"
        [(StoreKey.lastReset "limits:", Val.numStr 3),
         (StoreKey.activeSessions "limits:", Val.numStr 5)]).2.1
      (StoreKey.sessionHistory "limits:") = none := by
  have hden : (createSessionGuard ⟨1, 0, 0⟩ ⟨"", none, none, none⟩ "u" 7 "sid"
      [(StoreKey.lastReset "limits:", Val.numStr 3),
       (StoreKey.activeSessions "limits:", Val.numStr 5)]).1 =
      Except.ok (GuardRes.denied "Maximum simultaneous users reached.") := by
    simp [createSessionGuard, getOrInitCreatedAt, getNumberVal, kvGet, kvPut,
      keyPfx, durationDaysLimit, totalBytesLimit, volumeGbLimit,
      maxUsersLimit, Val.truthy, Val.toNum]
  have h := spec_C7 ⟨1, 0, 0⟩ ⟨"", none, none, none⟩ "u" 7 "sid"
    [(StoreKey.lastReset "limits:", Val.numStr 3),
     (StoreKey.activeSessions "limits:", Val.numStr 5)]
    "Maximum simultaneous users reached." hden
  constructor
  · rw [h.1 "limits:"]
    rfl
  · rw [h.2.2.2.1 "limits:"]
    rfl

/-! ### Single-threaded session machine (for the balanced-count claim) -/

/-- A guard as held by the session layer: the denied or allowed object
returned by createSessionGuard, with the allowed guard's closure state. -/
inductive GuardObj where
  | deniedG (reason : String)
  | allowedG (c : GuardCtx) (m : GuardMut)
deriving DecidableEq

/-- An allowed, not-yet-closed guard. -/
def isOpenG : GuardObj → Bool
  | GuardObj.allowedG _ m => !m.isClosed
  | GuardObj.deniedG _ => false

/-- The number of open guards. -/
def openCount (l : List GuardObj) : Nat := (l.filter isOpenG).length

/-- The whole single-threaded world: the shared store plus every guard
the session layer ever received. -/
structure World where
  store : Store
  guards : List GuardObj
deriving DecidableEq

/-- One session-layer operation: ask for a guard, report bytes to a
guard, or close a guard (guards are addressed by creation index). -/
inductive Op where
  | openOp (now : ℚ) (sessionId : String)
  | commitOp (gid : Nat) (day : String) (bytes : JsNum)
  | closeOp (gid : Nat) (day : String) (closeNow : ℚ)

/-- Execute one operation: openOp runs createSessionGuard and records
the returned guard (none on a thrown exception); commitOp and closeOp
run the corresponding method of an allowed guard and keep its updated
closure state and the updated store, exceptions included; a commit or
close of a denied guard is the built-in no-op. -/
def stepOp (st : Settings) (w : WsConfig) (uid : String) (wo : World) :
    Op → World
  | Op.openOp now sid =>
    match createSessionGuard st w uid now sid wo.store with
    | (Except.ok (GuardRes.allowed c m), s', _) =>
      { store := s', guards := wo.guards ++ [GuardObj.allowedG c m] }
    | (Except.ok (GuardRes.denied rs), s', _) =>
      { store := s', guards := wo.guards ++ [GuardObj.deniedG rs] }
    | (Except.error _, s', _) => { store := s', guards := wo.guards }
  | Op.commitOp gid day bytes =>
    match wo.guards[gid]? with
    | some (GuardObj.allowedG c m) =>
      { store := (addBytes c m wo.store day bytes).2.2.1
        guards := wo.guards.set gid
          (GuardObj.allowedG c (addBytes c m wo.store day bytes).2.1) }
    | _ => wo
  | Op.closeOp gid day t =>
    match wo.guards[gid]? with
    | some (GuardObj.allowedG c m) =>
      { store := (close c m wo.store day t).2.2.1
        guards := wo.guards.set gid
          (GuardObj.allowedG c (close c m wo.store day t).2.1) }
    | _ => wo

/-- Run a whole operation sequence. -/
def runOps (st : Settings) (w : WsConfig) (uid : String) (wo : World) :
    List Op → World
  | [] => wo
  | op :: rest => runOps st w uid (stepOp st w uid wo op) rest

/-- The history key of a namespace only ever holds a stringified array
(the only shape this code writes). -/
def histOk (s : Store) (ns : String) : Prop :=
  ∀ v, kvGet s (StoreKey.sessionHistory ns) = some v → ∃ l, v = Val.histStr l

/-- The machine invariant: the stored active-session count equals the
number of open guards, the history key stays well formed, and every
allowed guard belongs to the machine's namespace. -/
def Inv (ns : String) (wo : World) : Prop :=
  getNumberVal wo.store (StoreKey.activeSessions ns) =
    (openCount wo.guards : ℚ) ∧
  histOk wo.store ns ∧
  ∀ c m, GuardObj.allowedG c m ∈ wo.guards → c.ns = ns

lemma histParseOk_of_histOk (s : Store) (ns : String) (h : histOk s ns) :
    histParseOk (kvGet s (StoreKey.sessionHistory ns)) := by
  cases hget : kvGet s (StoreKey.sessionHistory ns) with
  | none => trivial
  | some v =>
    obtain ⟨l, rfl⟩ := h v hget
    exact Or.inr ⟨l, rfl⟩

/-- Setting index i (which holds y) to x shifts the filtered length by
the difference of the two indicator values. -/
lemma filter_length_set (p : GuardObj → Bool) (l : List GuardObj) (i : Nat)
    (x y : GuardObj) (h : l[i]? = some y) :
    ((l.set i x).filter p).length + (if p y then 1 else 0) =
      (l.filter p).length + (if p x then 1 else 0) := by
  induction l generalizing i with
  | nil => simp at h
  | cons a as ih =>
    cases i with
    | zero =>
      simp only [List.getElem?_cons_zero, Option.some.injEq] at h
      subst h
      simp only [List.set_cons_zero, List.filter_cons]
      by_cases hpa : p a <;> by_cases hpx : p x <;> simp [hpa, hpx]
    | succ n =>
      simp only [List.getElem?_cons_succ] at h
      simp only [List.set_cons_succ, List.filter_cons]
      by_cases hpa : p a
      · simp only [hpa, if_true]
        have := ih n h
        simp only [List.length_cons]
        omega
      · simp only [hpa, if_false]
        exact ih n h

/-- An open guard at some index makes the open count positive. -/
lemma openCount_pos (l : List GuardObj) (i : Nat) (c : GuardCtx)
    (m : GuardMut) (h : l[i]? = some (GuardObj.allowedG c m))
    (hcl : m.isClosed = false) : 1 ≤ openCount l := by
  have hmem : GuardObj.allowedG c m ∈ l := List.getElem?_mem h
  have hopen : isOpenG (GuardObj.allowedG c m) = true := by
    simp [isOpenG, hcl]
  have : GuardObj.allowedG c m ∈ l.filter isOpenG :=
    List.mem_filter.mpr ⟨hmem, hopen⟩
  exact List.length_pos_of_mem this

/-- addBytes never writes the active-session count of any namespace. -/
lemma addBytes_get_active (c : GuardCtx) (m : GuardMut) (s : Store)
    (day : String) (bytes : JsNum) (ns' : String) :
    kvGet (addBytes c m s day bytes).2.2.1 (StoreKey.activeSessions ns') =
      kvGet s (StoreKey.activeSessions ns') := by
  unfold addBytes
  cases bytes with
  | nonFinite => rfl
  | fin b =>
    by_cases hb' : b ≤ 0
    · simp [hb']
    · simp only [if_neg hb']
      by_cases hf : 64 * 1024 ≤ m.bufferedBytes + b <;>
        by_cases hl : 0 < c.totalLimit <;>
          simp only [hf, hl, if_true, if_false, if_pos, if_neg,
            not_false_iff] <;>
        first
          | (split_ifs <;> simp [flush_get_active])
          | simp [flush_get_active]

/-- addBytes never writes the session history of any namespace. -/
lemma addBytes_get_hist (c : GuardCtx) (m : GuardMut) (s : Store)
    (day : String) (bytes : JsNum) (ns' : String) :
    kvGet (addBytes c m s day bytes).2.2.1 (StoreKey.sessionHistory ns') =
      kvGet s (StoreKey.sessionHistory ns') := by
  unfold addBytes
  cases bytes with
  | nonFinite => rfl
  | fin b =>
    by_cases hb' : b ≤ 0
    · simp [hb']
    · simp only [if_neg hb']
      by_cases hf : 64 * 1024 ≤ m.bufferedBytes + b <;>
        by_cases hl : 0 < c.totalLimit <;>
          simp only [hf, hl, if_true, if_false, if_pos, if_neg,
            not_false_iff] <;>
        first
          | (split_ifs <;> simp [flush_get_hist])
          | simp [flush_get_hist]

/-- addBytes never flips the closed flag. -/
lemma addBytes_isClosed (c : GuardCtx) (m : GuardMut) (s : Store)
    (day : String) (bytes : JsNum) :
    ((addBytes c m s day bytes).2.1).isClosed = m.isClosed := by
  unfold addBytes
  cases bytes with
  | nonFinite => rfl
  | fin b =>
    by_cases hb' : b ≤ 0
    · simp [hb']
    · simp only [if_neg hb']
      by_cases hf : 64 * 1024 ≤ m.bufferedBytes + b <;>
        by_cases hl : 0 < c.totalLimit <;>
          simp only [hf, hl, if_true, if_false, if_pos, if_neg,
            not_false_iff] <;>
        first
          | (split_ifs <;> simp [flush_mut])
          | simp [flush_mut]

/-- Complete shape of a first close on a well-formed history: it
succeeds, marks the guard closed with an empty buffer, and the final
store is the flushed store with the decremented active count and the
appended end entry. -/
lemma close_open_parts (c : GuardCtx) (m : GuardMut) (s : Store)
    (day : String) (t : ℚ) (hcl : m.isClosed = false)
    (hh : histParseOk (kvGet s (StoreKey.sessionHistory c.ns))) :
    ∃ (L : List JsItem) (tr : List KVOp),
      close c m s day t = (Except.ok (),
        { isClosed := true, bufferedBytes := 0,
          sessionBytes := m.sessionBytes },
        kvPut (kvPut (flushUsage c { m with isClosed := true } s day).2.1
          (StoreKey.activeSessions c.ns)
          (Val.numStr
            (max (getNumberVal s (StoreKey.activeSessions c.ns) - 1) 0)))
          (StoreKey.sessionHistory c.ns) (Val.histStr L), tr) := by
  have hop : ¬m.isClosed = true := by simp [hcl]
  unfold close
  rw [if_neg hop]
  dsimp only []
  have hflush_a : getNumberVal
      (flushUsage c { m with isClosed := true } s day).2.1
      (StoreKey.activeSessions c.ns) =
      getNumberVal s (StoreKey.activeSessions c.ns) :=
    getNumberVal_congr _ _ _ (flush_get_active c _ s day c.ns)
  rw [hflush_a]
  have hmut := flush_mut c { m with isClosed := true } s day
  have hh3 : histParseOk (kvGet
      (kvPut (flushUsage c { m with isClosed := true } s day).2.1
        (StoreKey.activeSessions c.ns)
        (Val.numStr
          (max (getNumberVal s (StoreKey.activeSessions c.ns) - 1) 0)))
      (StoreKey.sessionHistory c.ns)) := by
    rw [kvGet_put_ne _ _ _ _ (by simp), flush_get_hist]
    exact hh
  obtain ⟨L, hap, _, _⟩ := append_of_histParseOk _ _ _ hh3
  rw [hap, hmut]
  exact ⟨L, _, rfl⟩

/-- A denied openOp preserves the invariant. -/
lemma open_denied_inv (st : Settings) (w : WsConfig) (uid : String)
    (now : ℚ) (sid : String) (wo : World) (r : String) (tr : List KVOp)
    (hcr : createSessionGuard st w uid now sid wo.store =
      (Except.ok (GuardRes.denied r),
        (getOrInitCreatedAt wo.store
          (StoreKey.lastReset (keyPfx w.profile)) now).2.1, tr))
    (h : Inv (keyPfx w.profile) wo) :
    Inv (keyPfx w.profile) (stepOp st w uid wo (Op.openOp now sid)) := by
  obtain ⟨hcnt, hhist, hns⟩ := h
  simp only [stepOp, hcr]
  refine ⟨?_, ?_, ?_⟩
  · rw [active_after_init]
    have : openCount (wo.guards ++ [GuardObj.deniedG r]) = openCount wo.guards := by
      simp [openCount, List.filter_append, isOpenG]
    rw [this]
    exact hcnt
  · intro v hv
    rw [hist_after_init] at hv
    exact hhist v hv
  · intro c0 m0 hm
    simp only [List.mem_append, List.mem_singleton] at hm
    rcases hm with hm | hm
    · exact hns c0 m0 hm
    · simp at hm

/-- Every operation preserves the machine invariant. -/
lemma stepOp_inv (st : Settings) (w : WsConfig) (uid : String) (wo : World)
    (op : Op) (h : Inv (keyPfx w.profile) wo) :
    Inv (keyPfx w.profile) (stepOp st w uid wo op) := by
  cases op with
  | openOp now sid =>
    by_cases he : cExpired st w now wo.store
    · exact open_denied_inv st w uid now sid wo _ _
        (create_denied_expired st w uid now sid wo.store he) h
    · by_cases hv : cVolume st w wo.store
      · exact open_denied_inv st w uid now sid wo _ _
          (create_denied_volume st w uid now sid wo.store he hv) h
      · by_cases hu : cUsers st w wo.store
        · exact open_denied_inv st w uid now sid wo _ _
            (create_denied_users st w uid now sid wo.store he hv hu) h
        · obtain ⟨hcnt, hhist, hns⟩ := h
          have hcr := create_allow_path st w uid now sid wo.store he hv hu
          have hp2 : histParseOk (kvGet
              (kvPut (getOrInitCreatedAt wo.store
                (StoreKey.lastReset (keyPfx w.profile)) now).2.1
                (StoreKey.activeSessions (keyPfx w.profile))
                (Val.numStr (getNumberVal wo.store
                  (StoreKey.activeSessions (keyPfx w.profile)) + 1)))
              (StoreKey.sessionHistory (keyPfx w.profile))) := by
            rw [kvGet_put_ne _ _ _ _ (by simp), hist_after_init]
            exact histParseOk_of_histOk _ _ hhist
          obtain ⟨L, hap, hlen, hhead⟩ := append_of_histParseOk _ _
            (startEntryOf w uid now sid (getNumberVal wo.store
              (StoreKey.activeSessions (keyPfx w.profile)))) hp2
          dsimp only [] at hcr
          rw [hap] at hcr
          simp only [stepOp, hcr]
          refine ⟨?_, ?_, ?_⟩
          · rw [getNumberVal_congr _ _ _ (kvGet_put_ne _ _ _ _ (by simp)),
              getNumberVal_put_numStr]
            have : openCount (wo.guards ++
                [GuardObj.allowedG
                  { ns := keyPfx w.profile, userID := uid,
                    profileName := w.profile, sessionId := sid,
                    startedAt := now, totalLimit := totalBytesLimit st w }
                  { isClosed := false, bufferedBytes := 0,
                    sessionBytes := 0 }]) = openCount wo.guards + 1 := by
              simp [openCount, List.filter_append, isOpenG]
            rw [this, hcnt]
            push_cast
            ring
          · intro v hv
            rw [kvGet_put_self] at hv
            exact ⟨L, by injection hv with h1; exact h1.symm⟩
          · intro c0 m0 hm
            simp only [List.mem_append, List.mem_singleton] at hm
            rcases hm with hm | hm
            · exact hns c0 m0 hm
            · injection hm with h1 h2
              rw [h1]
  | commitOp gid day bytes =>
    obtain ⟨hcnt, hhist, hns⟩ := h
    simp only [stepOp]
    cases hg : wo.guards[gid]? with
    | none => exact ⟨hcnt, hhist, hns⟩
    | some g =>
      cases g with
      | deniedG r => exact ⟨hcnt, hhist, hns⟩
      | allowedG c m =>
        refine ⟨?_, ?_, ?_⟩
        · rw [getNumberVal_congr _ _ _
            (addBytes_get_active c m wo.store day bytes _), hcnt]
          have hset := filter_length_set isOpenG wo.guards gid
            (GuardObj.allowedG c (addBytes c m wo.store day bytes).2.1)
            (GuardObj.allowedG c m) hg
          have hcl := addBytes_isClosed c m wo.store day bytes
          have heq : isOpenG (GuardObj.allowedG c
              (addBytes c m wo.store day bytes).2.1) =
              isOpenG (GuardObj.allowedG c m) := by
            simp [isOpenG, hcl]
          rw [heq] at hset
          have : openCount (wo.guards.set gid (GuardObj.allowedG c
              (addBytes c m wo.store day bytes).2.1)) =
              openCount wo.guards := by
            unfold openCount
            omega
          rw [this]
        · intro v hv
          rw [addBytes_get_hist] at hv
          exact hhist v hv
        · intro c0 m0 hm
          rcases List.mem_or_eq_of_mem_set hm with hm | hm
          · exact hns c0 m0 hm
          · injection hm with h1 h2
            rw [h1]
            exact hns c m (List.getElem?_mem hg)
  | closeOp gid day t =>
    obtain ⟨hcnt, hhist, hns⟩ := h
    simp only [stepOp]
    cases hg : wo.guards[gid]? with
    | none => exact ⟨hcnt, hhist, hns⟩
    | some g =>
      cases g with
      | deniedG r => exact ⟨hcnt, hhist, hns⟩
      | allowedG c m =>
        dsimp only []
        by_cases hcl : m.isClosed = true
        · rw [close_closed c m wo.store day t hcl]
          refine ⟨?_, ?_, ?_⟩
          · rw [hcnt]
            have hset := filter_length_set isOpenG wo.guards gid
              (GuardObj.allowedG c m) (GuardObj.allowedG c m) hg
            have : openCount (wo.guards.set gid (GuardObj.allowedG c m)) =
                openCount wo.guards := by
              unfold openCount
              omega
            rw [this]
          · exact hhist
          · intro c0 m0 hm
            rcases List.mem_or_eq_of_mem_set hm with hm | hm
            · exact hns c0 m0 hm
            · injection hm with h1 h2
              rw [h1]
              exact hns c m (List.getElem?_mem hg)
        · have hcl' : m.isClosed = false := by
            simpa [Bool.not_eq_true] using hcl
          have hnsc : c.ns = keyPfx w.profile :=
            hns c m (List.getElem?_mem hg)
          have hh : histParseOk (kvGet wo.store
              (StoreKey.sessionHistory c.ns)) := by
            rw [hnsc]
            exact histParseOk_of_histOk _ _ hhist
          obtain ⟨L, tr, hclose⟩ :=
            close_open_parts c m wo.store day t hcl' hh
          rw [hnsc] at hclose
          rw [hclose]
          have hone : 1 ≤ openCount wo.guards :=
            openCount_pos wo.guards gid c m hg hcl'
          refine ⟨?_, ?_, ?_⟩
          · rw [getNumberVal_congr _ _ _ (kvGet_put_ne _ _ _ _ (by simp)),
              getNumberVal_put_numStr, hcnt]
            have hset := filter_length_set isOpenG wo.guards gid
              (GuardObj.allowedG c
                { isClosed := true, bufferedBytes := 0,
                  sessionBytes := m.sessionBytes })
              (GuardObj.allowedG c m) hg
            simp [isOpenG, hcl'] at hset
            have hnew : openCount (wo.guards.set gid (GuardObj.allowedG c
                { isClosed := true, bufferedBytes := 0,
                  sessionBytes := m.sessionBytes })) =
                openCount wo.guards - 1 := by
              unfold openCount
              omega
            rw [hnew]
            have hmax : max (((openCount wo.guards : ℕ) : ℚ) - 1) 0 =
                ((openCount wo.guards : ℕ) : ℚ) - 1 := by
              apply max_eq_left
              have : (1 : ℚ) ≤ ((openCount wo.guards : ℕ) : ℚ) := by
                exact_mod_cast hone
              linarith
            rw [hmax]
            push_cast [Nat.cast_sub hone]
            ring
          · intro v hv
            rw [kvGet_put_self] at hv
            exact ⟨L, by injection hv with h1; exact h1.symm⟩
          · intro c0 m0 hm
            rcases List.mem_or_eq_of_mem_set hm with hm | hm
            · exact hns c0 m0 hm
            · injection hm with h1 h2
              rw [h1]
              exact hnsc

lemma runOps_inv (st : Settings) (w : WsConfig) (uid : String)
    (ops : List Op) (wo : World) (h : Inv (keyPfx w.profile) wo) :
    Inv (keyPfx w.profile) (runOps st w uid wo ops) := by
  induction ops generalizing wo with
  | nil => exact h
  | cons op rest ih => exact ih _ (stepOp_inv st w uid wo op h)

/-- C4: on a fresh namespace, running any single-threaded sequence of
open, commit and close operations in which every guard that was ever
allowed ends up closed leaves the stored ActiveSessionCount at exactly
0: each allowed admission increments it by one and the first close of
each allowed guard decrements it by one, never driving it negative. -/
theorem spec_C4 (st : Settings) (w : WsConfig) (uid : String)
    (ops : List Op)
    (hclosed : ((runOps st w uid ⟨[], []⟩ ops).guards.all
      (fun g => match g with
        | GuardObj.allowedG _ m => m.isClosed
        | GuardObj.deniedG _ => true)) = true) :
    getNumberVal (runOps st w uid ⟨[], []⟩ ops).store
      (StoreKey.activeSessions (keyPfx w.profile)) = 0 := by
  have hinit : Inv (keyPfx w.profile) ⟨[], []⟩ := by
    refine ⟨?_, ?_, ?_⟩
    · simp [getNumberVal, openCount]
    · intro v hv
      simp [kvGet] at hv
    · intro c m hm
      simp at hm
  have hinv := runOps_inv st w uid ops ⟨[], []⟩ hinit
  rw [hinv.1]
  have hzero : openCount (runOps st w uid ⟨[], []⟩ ops).guards = 0 := by
    unfold openCount
    rw [List.length_eq_zero, List.filter_eq_nil_iff]
    intro g hg
    have hga := (List.all_eq_true.mp hclosed) g hg
    cases g with
    | deniedG r => simp [isOpenG]
    | allowedG c m =>
      simp only [] at hga
      simp [isOpenG, hga]
  rw [hzero]
  simp

/-- Witness for C4: a concrete open-then-close run on a fresh namespace
ends with every allowed guard closed and a stored count of 0. -/
theorem spec_C4_witness :
    ((runOps ⟨2, 0, 0⟩ ⟨"", none, none, none⟩ "u" ⟨[], []⟩
        [Op.openOp 1000 "s1", Op.closeOp 0 "2024-01-01" 2000]).guards.all
      (fun g => match g with
        | GuardObj.allowedG _ m => m.isClosed
        | GuardObj.deniedG _ => true)) = true ∧
    getNumberVal (runOps ⟨2, 0, 0⟩ ⟨"", none, none, none⟩ "u" ⟨[], []⟩
        [Op.openOp 1000 "s1", Op.closeOp 0 "2024-01-01" 2000]).store
      (StoreKey.activeSessions (keyPfx "")) = 0 := by
  have hall : ((runOps ⟨2, 0, 0⟩ ⟨"", none, none, none⟩ "u" ⟨[], []⟩
      [Op.openOp 1000 "s1", Op.closeOp 0 "2024-01-01" 2000]).guards.all
      (fun g => match g with
        | GuardObj.allowedG _ m => m.isClosed
        | GuardObj.deniedG _ => true)) = true := by
    simp [runOps, stepOp, close, flushUsage, createSessionGuard,
      getOrInitCreatedAt, getNumberVal, kvGet, kvPut, appendSessionHistory,
      keyPfx, durationDaysLimit, totalBytesLimit, volumeGbLimit,
      maxUsersLimit, Val.truthy, Val.toNum, Val.jsonParse]
    norm_num [close, flushUsage, getNumberVal, kvGet, kvPut,
      appendSessionHistory, Val.truthy, Val.toNum, Val.jsonParse]
  exact ⟨hall, spec_C4 ⟨2, 0, 0⟩ ⟨"", none, none, none⟩ "u"
    [Op.openOp 1000 "s1", Op.closeOp 0 "2024-01-01" 2000] hall⟩

end Limits
